import Mathlib

/-!
# GraphicBuffer: ownership, wrapping and the flatten / unflatten wire format

A shallow embedding of `libs/ui/GraphicBuffer.cpp`.

* C integers are `Int` (signed) or `Nat` (unsigned); every conversion the source
  performs is an explicit wrap (`toInt32`, `toUInt32`, `toUInt64`, `toSizeT`).
* `size_t` and `uintptr_t` have the width of the target data model (`Abi`).
* Caller memory is a map from addresses to the `int` stored there.  The word
  buffer is addressed in bytes (the cursor is a `void*`), the descriptor array in
  elements (the cursor is an `int*`).
* The allocator, the mapper and the native-handle primitive are collaborators:
  their answers come from `Collaborators`, and every call is recorded, in order,
  in a list of `Event`s.
-/

namespace android

/-! ## Machine integers -/

/-- Data model of the build target: it fixes the width of `size_t` and `uintptr_t`. -/
inductive Abi where
  | ilp32
  | lp64
deriving DecidableEq, Repr

/-- Number of values of `size_t` (and of `uintptr_t`): 2^32 or 2^64. -/
def Abi.sizeModulus : Abi → Nat
  | .ilp32 => 4294967296
  | .lp64 => 18446744073709551616

/-- Build parameters the source depends on: the data model and whether the
preprocessor symbol `EGL_NEEDS_HANDLE` is defined. -/
structure Build where
  abi : Abi
  EGL_NEEDS_HANDLE : Bool
deriving DecidableEq, Repr

/-- Conversion to `int` / `int32_t` (two-complement wrap), `static_cast<int32_t>`. -/
def toInt32 (x : Int) : Int := (x + 2147483648) % 4294967296 - 2147483648

/-- Conversion to `uint32_t`. -/
def toUInt32 (x : Int) : Nat := (x % 4294967296).toNat

/-- Conversion to `uint64_t`. -/
def toUInt64 (x : Int) : Nat := (x % 18446744073709551616).toNat

/-- Conversion to `size_t` / `uintptr_t`. -/
def toSizeT (abi : Abi) (x : Int) : Nat := (x % (abi.sizeModulus : Int)).toNat

/-- Range of an `int`. -/
def isInt32 (x : Int) : Prop := -2147483648 ≤ x ∧ x < 2147483648

instance (x : Int) : Decidable (isInt32 x) := by
  unfold isInt32; infer_instance

/-! ## Status codes -/

/-- Status returned by every fallible operation (`status_t`, an `int`). -/
abbrev status_t := Int

/-- Modelled from the spec: the status constants of `utils/Errors.h`, which is not
under src. The spec names the kinds success, `NoMemory`, `BadValue`, `BadType` and
`InvalidOperation`; the values are the ones of the platform header. -/
def NO_ERROR : status_t := 0

/-- Modelled from the spec: `NoMemory` of `utils/Errors.h` (`-ENOMEM`). -/
def NO_MEMORY : status_t := -12

/-- Modelled from the spec: `BadValue` of `utils/Errors.h` (`-EINVAL`). -/
def BAD_VALUE : status_t := -22

/-- Modelled from the spec: `BadType` of `utils/Errors.h` (`INT32_MIN + 1`). -/
def BAD_TYPE : status_t := -2147483647

/-- Modelled from the spec: `InvalidOperation` of `utils/Errors.h` (`-ENOSYS`). -/
def INVALID_OPERATION : status_t := -38

/-- The multi-character constant written `GBFR` in the source: 0x47424652. -/
def GBFR : Int := 0x47424652

/-! ## Data model -/

/-- The platform handle `native_handle_t`: `numFds` descriptors followed by
`numInts` integers in `data`.  (The `version` field is never read by this file.) -/
structure native_handle where
  numFds : Int
  numInts : Int
  data : List Int
deriving DecidableEq, Repr

/-- A handle as the platform hands it out: non-negative counts, a payload of
exactly `numFds + numInts` entries, and an object no larger than `PTRDIFF_MAX`. -/
def native_handle.WF (abi : Abi) (h : native_handle) : Prop :=
  0 ≤ h.numFds ∧ 0 ≤ h.numInts ∧ (h.data.length : Int) = h.numFds + h.numInts ∧
    4 * (3 + h.numFds + h.numInts) < (abi.sizeModulus : Int) / 2

instance (abi : Abi) (h : native_handle) : Decidable (h.WF abi) := by
  unfold native_handle.WF; infer_instance

/-- The descriptors of a handle: the first `numFds` entries of `data`. -/
def native_handle.fdPayload (h : native_handle) : List Int :=
  h.data.take h.numFds.toNat

/-- The integers of a handle: the `numInts` entries of `data` after the descriptors. -/
def native_handle.intPayload (h : native_handle) : List Int :=
  (h.data.drop h.numFds.toNat).take h.numInts.toNat

/-- Ownership mode `mOwner`. -/
inductive Owner where
  | ownNone
  | ownData
  | ownHandle
deriving DecidableEq, Repr

/-- How a constructor adopts a handle (`HandleWrapMethod`). -/
inductive HandleWrapMethod where
  | WRAP_HANDLE
  | TAKE_HANDLE
  | TAKE_UNREGISTERED_HANDLE
  | CLONE_HANDLE
deriving DecidableEq, Repr

/-- The object: the `ANativeWindowBuffer` fields (`int width, height, stride,
format, usage`, `uintptr_t layerCount`, the handle pointer) and the members
`mOwner`, `mInitCheck`, `mId` (`uint64_t`) and `mGenerationNumber` (`uint32_t`). -/
structure GraphicBuffer where
  width : Int
  height : Int
  stride : Int
  format : Int
  layerCount : Nat
  usage : Int
  handle : Option native_handle
  mOwner : Owner
  mInitCheck : status_t
  mId : Nat
  mGenerationNumber : Nat
deriving DecidableEq, Repr

/-- Every field lies in the range of its C type and the handle, if any, is
well formed. -/
def GraphicBuffer.WF (abi : Abi) (gb : GraphicBuffer) : Prop :=
  isInt32 gb.width ∧ isInt32 gb.height ∧ isInt32 gb.stride ∧ isInt32 gb.format ∧
    isInt32 gb.usage ∧ gb.layerCount < abi.sizeModulus ∧
    gb.mId < 18446744073709551616 ∧ gb.mGenerationNumber < 4294967296 ∧
    ∀ h, gb.handle = some h → h.WF abi

/-- A platform buffer descriptor (`ANativeWindowBuffer`) handed to a constructor. -/
structure ANativeWindowBuffer where
  width : Int
  height : Int
  stride : Int
  format : Int
  layerCount : Nat
  usage : Int
  handle : Option native_handle
deriving DecidableEq, Repr

/-! ## Collaborators -/

/-- A rectangle `Rect` with `int32_t` edges. -/
structure Rect where
  left : Int
  top : Int
  right : Int
  bottom : Int
deriving DecidableEq, Repr

/-- A call into a collaborator, with the arguments it was given (handle pointers,
and for the allocator and the lock operations the remaining inputs). -/
inductive Event where
  | unregisterBuffer (h : Option native_handle)
  | native_handle_close (h : Option native_handle)
  | native_handle_delete (h : Option native_handle)
  | allocatorFree (h : Option native_handle)
  | native_handle_create (numFds numInts : Int)
  | native_handle_clone (h : Option native_handle)
  | importBuffer (h : Option native_handle)
  | allocatorAlloc (width height : Nat) (format : Int) (usage : Nat)
  | lock (h : Option native_handle) (usage : Nat) (rect : Rect)
  | lockYCbCr (h : Option native_handle) (usage : Nat) (rect : Rect)
  | lockAsync (h : Option native_handle) (usage : Nat) (rect : Rect) (fenceFd : Int)
  | lockAsyncYCbCr (h : Option native_handle) (usage : Nat) (rect : Rect) (fenceFd : Int)
deriving DecidableEq, Repr

/-- Answers of the collaborators: whether `native_handle_create` returns a handle,
what `native_handle_clone` returns (`none` is the null pointer), and the status of
the mapper `importBuffer`. -/
structure Collaborators where
  native_handle_create : Int → Int → Bool
  native_handle_clone : Option native_handle → Option native_handle
  importBuffer : Option native_handle → status_t

/-- What `GraphicBufferAllocator::alloc` leaves behind: its status, the value of the
handle pointer it was given by reference, and the value of `outStride`. -/
structure AllocResult where
  err : status_t
  handle : Option native_handle
  stride : Nat
deriving DecidableEq, Repr

/-- The allocator: `alloc(width, height, format, usage, &handle, &outStride)`, as a
function of its four inputs and of the value `handle` has when it is called. -/
structure Allocator where
  alloc : Nat → Nat → Int → Nat → Option native_handle → AllocResult

/-- The lock operations of the mapper, each returning its status (the address or the
plane descriptor they hand back is not inspected by this file). -/
structure Mapper where
  lock : Option native_handle → Nat → Rect → status_t
  lockYCbCr : Option native_handle → Nat → Rect → status_t
  lockAsync : Option native_handle → Nat → Rect → Int → status_t
  lockAsyncYCbCr : Option native_handle → Nat → Rect → Int → status_t

/-- The process: its identifier and the static counter `nextId` of `getUniqueId`. -/
structure Process where
  pid : Int
  nextId : Int
deriving DecidableEq, Repr

/-! ## Caller memory and cursors -/

/-- Memory holding `int`s, by address. -/
abbrev Mem := Nat → Int

/-- The four in/out arguments of `flatten` and `unflatten`: `buffer` (a byte
address), `size` (bytes), `fds` (an element index into the descriptor array) and
`count` (elements). -/
structure Cursors where
  buffer : Nat
  size : Nat
  fds : Nat
  count : Nat
deriving DecidableEq, Repr

/-- Read `buf[i]` where `buf` is the `int*` at byte address `base`. -/
def loadWord (m : Mem) (base i : Nat) : Int := m (base + 4 * i)

/-- Write `buf[i] = v` where `buf` is the `int32_t*` at byte address `base`. -/
def storeWord (m : Mem) (base i : Nat) (v : Int) : Mem :=
  fun a => if a = base + 4 * i then v else m a

/-- The `n` words starting at byte address `base`. -/
def loadWords (m : Mem) (base n : Nat) : List Int :=
  (List.range n).map (fun i => m (base + 4 * i))

/-- The `n` descriptors starting at element `base`. -/
def loadFds (m : Mem) (base n : Nat) : List Int :=
  (List.range n).map (fun i => m (base + i))

/-- Copy of `n` words from `src` (a handle payload, starting at entry `start`)
to the words at byte address `base`. -/
def memcpyToWords (m : Mem) (base : Nat) (src : List Int) (start n : Nat) : Mem :=
  fun a => if base ≤ a ∧ (a - base) % 4 = 0 ∧ (a - base) / 4 < n
    then src.getD (start + (a - base) / 4) 0 else m a

/-- Copy of `n` entries from `src` (a handle payload, starting at entry `start`)
to the descriptor array at element `base`. -/
def memcpyToFds (m : Mem) (base : Nat) (src : List Int) (start n : Nat) : Mem :=
  fun a => if base ≤ a ∧ a - base < n then src.getD (start + (a - base)) 0 else m a

/-- Number of `int`s moved by a `memcpy` whose length argument is
`static_cast<size_t>(n) * sizeof(int)`. -/
def memcpyInts (abi : Abi) (n : Int) : Nat :=
  (toSizeT abi n * 4 % abi.sizeModulus) / 4

/-! ## Construction -/

/-- The static function `getUniqueId`: the process identifier shifted into the high
half, or-ed with the previous value of the counter, which is then incremented. -/
def getUniqueId (p : Process) : Nat × Process :=
  let id := (toUInt64 p.pid <<< 32) % 18446744073709551616
  let id := id ||| toUInt32 p.nextId
  (id, { p with nextId := toInt32 (p.nextId + 1) })

/-- The default constructor `GraphicBuffer()`.  No constructor of this file assigns
`mGenerationNumber`; its initial value comes from the class declaration and is taken
to be 0 (no statement below depends on it). -/
def GraphicBuffer.new (p : Process) : GraphicBuffer × Process :=
  let r := getUniqueId p
  ({ width := 0, height := 0, stride := 0, format := 0, usage := 0, layerCount := 0,
     handle := none, mOwner := Owner.ownData, mInitCheck := NO_ERROR, mId := r.1,
     mGenerationNumber := 0 }, r.2)

/-- The constructor `GraphicBuffer(ANativeWindowBuffer*, bool keepOwnership)`. -/
def GraphicBuffer.ofNativeBuffer (p : Process) (buffer : ANativeWindowBuffer)
    (keepOwnership : Bool) : GraphicBuffer × Process :=
  let r := getUniqueId p
  ({ width := buffer.width, height := buffer.height, stride := buffer.stride,
     format := buffer.format, layerCount := buffer.layerCount, usage := buffer.usage,
     handle := buffer.handle,
     mOwner := if keepOwnership then Owner.ownHandle else Owner.ownNone,
     mInitCheck := NO_ERROR, mId := r.1, mGenerationNumber := 0 }, r.2)

/-- The statement `width = height = stride = format = layerCount = usage = 0;
handle = NULL;` that several failure paths execute. -/
def GraphicBuffer.clear (gb : GraphicBuffer) : GraphicBuffer :=
  { gb with width := 0, height := 0, stride := 0, format := 0, layerCount := 0,
            usage := 0, handle := none }

/-! ## Release -/

/-- The method `free_handle`: release the handle the way the ownership mode
prescribes, then clear the pointer (unless `EGL_NEEDS_HANDLE` is defined). -/
def GraphicBuffer.free_handle (b : Build) (gb : GraphicBuffer) :
    GraphicBuffer × List Event :=
  let ev :=
    if gb.mOwner = Owner.ownHandle then
      [Event.unregisterBuffer gb.handle, Event.native_handle_close gb.handle,
       Event.native_handle_delete gb.handle]
    else if gb.mOwner = Owner.ownData then
      [Event.allocatorFree gb.handle]
    else []
  (if b.EGL_NEEDS_HANDLE then gb else { gb with handle := none }, ev)

/-! ## needsReallocation -/

/-- The method `needsReallocation(inWidth, inHeight, inFormat, inLayerCount,
inUsage)`; the requests are `uint32_t`, `PixelFormat` (an `int`) and `uint64_t`. -/
def GraphicBuffer.needsReallocation (gb : GraphicBuffer) (inWidth inHeight : Nat)
    (inFormat : Int) (inLayerCount inUsage : Nat) : Bool :=
  if toInt32 inWidth ≠ gb.width then true
  else if toInt32 inHeight ≠ gb.height then true
  else if inFormat ≠ gb.format then true
  else if inLayerCount ≠ gb.layerCount then true
  else if (toUInt32 gb.usage &&& inUsage) ≠ inUsage then true
  else false

/-! ## Wrapping a handle -/

/-- The method `initWithHandle`.  The call it makes to itself on import failure
passes `WRAP_HANDLE`, which never reaches the import branch. -/
def GraphicBuffer.initWithHandle (env : Collaborators) (gb : GraphicBuffer)
    (handle : Option native_handle) (method : HandleWrapMethod)
    (width height : Nat) (format : Int) (layerCount usage stride : Nat) :
    status_t × GraphicBuffer × List Event :=
  let clone : Option native_handle :=
    if method = HandleWrapMethod.CLONE_HANDLE then env.native_handle_clone handle else none
  if method = HandleWrapMethod.CLONE_HANDLE ∧ clone = none then
    (NO_MEMORY, gb, [Event.native_handle_clone handle])
  else
    let ev0 : List Event :=
      if method = HandleWrapMethod.CLONE_HANDLE then [Event.native_handle_clone handle] else []
    let handle1 := if method = HandleWrapMethod.CLONE_HANDLE then clone else handle
    let method1 :=
      if method = HandleWrapMethod.CLONE_HANDLE then HandleWrapMethod.TAKE_UNREGISTERED_HANDLE
      else method
    let gb1 : GraphicBuffer :=
      { gb with width := toInt32 width, height := toInt32 height, stride := toInt32 stride,
                format := format, usage := toInt32 usage, layerCount := layerCount,
                handle := handle1,
                mOwner := if method1 = HandleWrapMethod.WRAP_HANDLE then Owner.ownNone
                          else Owner.ownHandle }
    if method1 = HandleWrapMethod.TAKE_UNREGISTERED_HANDLE then
      let err := env.importBuffer handle1
      if err ≠ NO_ERROR then
        let ev1 : List Event :=
          if clone.isSome then
            [Event.native_handle_close clone, Event.native_handle_delete clone]
          else []
        let r := GraphicBuffer.initWithHandle env gb1 none HandleWrapMethod.WRAP_HANDLE
                   0 0 0 0 0 0
        (err, r.2.1, ev0 ++ [Event.importBuffer handle1] ++ ev1 ++ r.2.2)
      else (NO_ERROR, gb1, ev0 ++ [Event.importBuffer handle1])
    else (NO_ERROR, gb1, ev0)
termination_by (if method = HandleWrapMethod.WRAP_HANDLE then 0 else 1 : Nat)
decreasing_by
  simp_wf
  rename_i hm
  cases method <;> simp_all [method1]

/-- The constructor `GraphicBuffer(handle, method, width, height, format,
layerCount, usage, stride)`: default construction, then `initWithHandle`, whose
status becomes `mInitCheck`. -/
def GraphicBuffer.wrap (env : Collaborators) (p : Process)
    (handle : Option native_handle) (method : HandleWrapMethod)
    (width height : Nat) (format : Int) (layerCount usage stride : Nat) :
    GraphicBuffer × Process × List Event :=
  let g := GraphicBuffer.new p
  let r := g.1.initWithHandle env handle method width height format layerCount usage stride
  ({ r.2.1 with mInitCheck := r.1 }, g.2, r.2.2)

/-! ## Allocation by size and reallocation -/

/-- The method `initWithSize(inWidth, inHeight, inFormat, inLayerCount, inUsage)`; all
requests are `uint32_t` except `inFormat`.  The allocator receives width, height,
format and usage, and writes `handle` and `outStride`. -/
def GraphicBuffer.initWithSize (al : Allocator) (gb : GraphicBuffer)
    (inWidth inHeight : Nat) (inFormat : Int) (inLayerCount inUsage : Nat) :
    status_t × GraphicBuffer × List Event :=
  let r := al.alloc inWidth inHeight inFormat inUsage gb.handle
  let gb1 : GraphicBuffer := { gb with handle := r.handle }
  let ev := [Event.allocatorAlloc inWidth inHeight inFormat inUsage]
  if r.err = NO_ERROR then
    (r.err,
     { gb1 with width := toInt32 inWidth, height := toInt32 inHeight, format := inFormat,
                layerCount := inLayerCount, usage := toInt32 inUsage,
                stride := toInt32 r.stride }, ev)
  else (r.err, gb1, ev)

/-- The constructor `GraphicBuffer(inWidth, inHeight, inFormat, inLayerCount, usage,
requestorName)`: default construction, then `initWithSize`, whose status becomes
`mInitCheck`.  The `uint64_t usage` is narrowed to the `uint32_t` parameter. -/
def GraphicBuffer.ofSize (al : Allocator) (p : Process)
    (inWidth inHeight : Nat) (inFormat : Int) (inLayerCount usage : Nat) :
    GraphicBuffer × Process × List Event :=
  let g := GraphicBuffer.new p
  let r := g.1.initWithSize al inWidth inHeight inFormat inLayerCount (usage % 4294967296)
  ({ r.2.1 with mInitCheck := r.1 }, g.2, r.2.2)

/-- The method `reallocate(inWidth, inHeight, inFormat, inLayerCount, inUsage)` with a
`uint64_t inUsage`, which is compared as `int` and handed to `initWithSize` narrowed
to `uint32_t`. -/
def GraphicBuffer.reallocate (al : Allocator) (gb : GraphicBuffer)
    (inWidth inHeight : Nat) (inFormat : Int) (inLayerCount inUsage : Nat) :
    status_t × GraphicBuffer × List Event :=
  if gb.mOwner ≠ Owner.ownData then (INVALID_OPERATION, gb, [])
  else if gb.handle.isSome ∧ toInt32 inWidth = gb.width ∧ toInt32 inHeight = gb.height ∧
      inFormat = gb.format ∧ inLayerCount = gb.layerCount ∧ toInt32 inUsage = gb.usage then
    (NO_ERROR, gb, [])
  else
    let f : GraphicBuffer × List Event :=
      if gb.handle.isSome then ({ gb with handle := none }, [Event.allocatorFree gb.handle])
      else (gb, [])
    let r := f.1.initWithSize al inWidth inHeight inFormat inLayerCount (inUsage % 4294967296)
    (r.1, r.2.1, f.2 ++ r.2.2)

/-! ## Destruction -/

/-- The destructor: `if (handle) free_handle();`. -/
def GraphicBuffer.destroy (b : Build) (gb : GraphicBuffer) : GraphicBuffer × List Event :=
  if gb.handle.isSome then gb.free_handle b else (gb, [])

/-! ## CPU access -/

/-- The method `lock(inUsage, rect, vaddr)`. -/
def GraphicBuffer.lock (mp : Mapper) (gb : GraphicBuffer) (inUsage : Nat) (rect : Rect) :
    status_t × List Event :=
  if rect.left < 0 ∨ rect.right > gb.width ∨ rect.top < 0 ∨ rect.bottom > gb.height then
    (BAD_VALUE, [])
  else (mp.lock gb.handle inUsage rect, [Event.lock gb.handle inUsage rect])

/-- The method `lockYCbCr(inUsage, rect, ycbcr)`. -/
def GraphicBuffer.lockYCbCr (mp : Mapper) (gb : GraphicBuffer) (inUsage : Nat)
    (rect : Rect) : status_t × List Event :=
  if rect.left < 0 ∨ rect.right > gb.width ∨ rect.top < 0 ∨ rect.bottom > gb.height then
    (BAD_VALUE, [])
  else (mp.lockYCbCr gb.handle inUsage rect, [Event.lockYCbCr gb.handle inUsage rect])

/-- The method `lockAsync(inUsage, rect, vaddr, fenceFd)`. -/
def GraphicBuffer.lockAsync (mp : Mapper) (gb : GraphicBuffer) (inUsage : Nat) (rect : Rect)
    (fenceFd : Int) : status_t × List Event :=
  if rect.left < 0 ∨ rect.right > gb.width ∨ rect.top < 0 ∨ rect.bottom > gb.height then
    (BAD_VALUE, [])
  else
    (mp.lockAsync gb.handle inUsage rect fenceFd,
     [Event.lockAsync gb.handle inUsage rect fenceFd])

/-- The method `lockAsyncYCbCr(inUsage, rect, ycbcr, fenceFd)`. -/
def GraphicBuffer.lockAsyncYCbCr (mp : Mapper) (gb : GraphicBuffer) (inUsage : Nat)
    (rect : Rect) (fenceFd : Int) : status_t × List Event :=
  if rect.left < 0 ∨ rect.right > gb.width ∨ rect.top < 0 ∨ rect.bottom > gb.height then
    (BAD_VALUE, [])
  else
    (mp.lockAsyncYCbCr gb.handle inUsage rect fenceFd,
     [Event.lockAsyncYCbCr gb.handle inUsage rect fenceFd])

/-! ## Serialization -/

/-- The method `getFlattenedSize`:
`static_cast<size_t>(12 + (handle ? handle->numInts : 0)) * sizeof(int)`. -/
def GraphicBuffer.getFlattenedSize (abi : Abi) (gb : GraphicBuffer) : Nat :=
  toSizeT abi (12 + (match gb.handle with | some h => h.numInts | none => 0)) * 4
    % abi.sizeModulus

/-- The method `getFdCount`: `static_cast<size_t>(handle ? handle->numFds : 0)`. -/
def GraphicBuffer.getFdCount (abi : Abi) (gb : GraphicBuffer) : Nat :=
  toSizeT abi (match gb.handle with | some h => h.numFds | none => 0)

/-- The method `flatten(buffer, size, fds, count)`.  It returns the status, the
word memory, the descriptor memory and the four cursors as the caller finds them
afterwards.  The two subtractions are guarded by the capacity checks, so they do
not wrap. -/
def GraphicBuffer.flatten (abi : Abi) (gb : GraphicBuffer) (mem fdMem : Mem)
    (c : Cursors) : status_t × Mem × Mem × Cursors :=
  let sizeNeeded := gb.getFlattenedSize abi
  if c.size < sizeNeeded then (NO_MEMORY, mem, fdMem, c)
  else
    let fdCountNeeded := gb.getFdCount abi
    if c.count < fdCountNeeded then (NO_MEMORY, mem, fdMem, c)
    else
      let m := storeWord mem c.buffer 0 GBFR
      let m := storeWord m c.buffer 1 gb.width
      let m := storeWord m c.buffer 2 gb.height
      let m := storeWord m c.buffer 3 gb.stride
      let m := storeWord m c.buffer 4 gb.format
      let m := storeWord m c.buffer 5 (toInt32 gb.layerCount)
      let m := storeWord m c.buffer 6 gb.usage
      let m := storeWord m c.buffer 7 (toInt32 ((gb.mId >>> 32 : Nat) : Int))
      let m := storeWord m c.buffer 8 (toInt32 ((gb.mId &&& 0xFFFFFFFF : Nat) : Int))
      let m := storeWord m c.buffer 9 (toInt32 gb.mGenerationNumber)
      let m := storeWord m c.buffer 10 0
      let m := storeWord m c.buffer 11 0
      let w : Mem × Mem :=
        match gb.handle with
        | some h =>
          let m := storeWord m c.buffer 10 h.numFds
          let m := storeWord m c.buffer 11 h.numInts
          let f := memcpyToFds fdMem c.fds h.data 0 (memcpyInts abi h.numFds)
          let m := memcpyToWords m (c.buffer + 4 * 12) h.data h.numFds.toNat
                     (memcpyInts abi h.numInts)
          (m, f)
        | none => (m, fdMem)
      let c1 : Cursors := { c with buffer := c.buffer + sizeNeeded, size := c.size - sizeNeeded }
      let c2 : Cursors :=
        match gb.handle with
        | some h => { c1 with fds := (c1.fds + h.numFds).toNat,
                              count := c1.count - toSizeT abi h.numFds }
        | none => c1
      (NO_ERROR, w.1, w.2, c2)

/-- The value `numFds` that `unflatten` reads: `static_cast<size_t>(buf[10])`. -/
def wireNumFds (abi : Abi) (mem : Mem) (c : Cursors) : Nat :=
  toSizeT abi (loadWord mem c.buffer 10)

/-- The value `numInts` that `unflatten` reads: `static_cast<size_t>(buf[11])`. -/
def wireNumInts (abi : Abi) (mem : Mem) (c : Cursors) : Nat :=
  toSizeT abi (loadWord mem c.buffer 11)

/-- The method `unflatten(buffer, size, fds, count)`.  It returns the status, the
object, the four cursors and the collaborator calls it made.  The handle it builds
is the result of `native_handle_create` followed by the two `memcpy`s, which
together fill all of `data`. -/
def GraphicBuffer.unflatten (b : Build) (env : Collaborators) (gb : GraphicBuffer)
    (mem fdMem : Mem) (c : Cursors) : status_t × GraphicBuffer × Cursors × List Event :=
  if c.size < 12 * 4 then (NO_MEMORY, gb, c, [])
  else if loadWord mem c.buffer 0 ≠ GBFR then (BAD_TYPE, gb, c, [])
  else
    let numFds := wireNumFds b.abi mem c
    let numInts := wireNumInts b.abi mem c
    let maxNumber := 4096
    if numFds ≥ maxNumber ∨ numInts ≥ maxNumber - 12 then (BAD_VALUE, gb.clear, c, [])
    else
      let sizeNeeded := (12 + numInts) * 4 % b.abi.sizeModulus
      if c.size < sizeNeeded then (NO_MEMORY, gb, c, [])
      else if c.count < numFds then (NO_MEMORY, gb, c, [])
      else
        let f := if gb.handle.isSome then gb.free_handle b else (gb, [])
        let gb1 := f.1
        if numFds ≠ 0 ∨ numInts ≠ 0 then
          let gb2 : GraphicBuffer :=
            { gb1 with width := loadWord mem c.buffer 1, height := loadWord mem c.buffer 2,
                       stride := loadWord mem c.buffer 3, format := loadWord mem c.buffer 4,
                       layerCount := toSizeT b.abi (loadWord mem c.buffer 5),
                       usage := loadWord mem c.buffer 6 }
          let ev := f.2 ++ [Event.native_handle_create (toInt32 numFds) (toInt32 numInts)]
          if env.native_handle_create (toInt32 numFds) (toInt32 numInts) = false then
            (NO_MEMORY, gb2.clear, c, ev)
          else
            let h : native_handle :=
              { numFds := toInt32 numFds, numInts := toInt32 numInts,
                data := loadFds fdMem c.fds numFds ++ loadWords mem (c.buffer + 4 * 12) numInts }
            let gb3 : GraphicBuffer :=
              { gb2 with handle := some h,
                         mId := ((toUInt64 (loadWord mem c.buffer 7) <<< 32)
                                   % 18446744073709551616) ||| toUInt32 (loadWord mem c.buffer 8),
                         mGenerationNumber := toUInt32 (loadWord mem c.buffer 9),
                         mOwner := Owner.ownHandle }
            let err := env.importBuffer (some h)
            if err ≠ NO_ERROR then (err, gb3.clear, c, ev ++ [Event.importBuffer (some h)])
            else
              (NO_ERROR, gb3,
               { buffer := c.buffer + sizeNeeded, size := c.size - sizeNeeded,
                 fds := c.fds + numFds, count := c.count - numFds },
               ev ++ [Event.importBuffer (some h)])
        else
          let gb3 : GraphicBuffer :=
            { gb1.clear with
                mId := ((toUInt64 (loadWord mem c.buffer 7) <<< 32)
                          % 18446744073709551616) ||| toUInt32 (loadWord mem c.buffer 8),
                mGenerationNumber := toUInt32 (loadWord mem c.buffer 9),
                mOwner := Owner.ownHandle }
          (NO_ERROR, gb3,
           { buffer := c.buffer + sizeNeeded, size := c.size - sizeNeeded,
             fds := c.fds + numFds, count := c.count - numFds },
           f.2)

/-! ## Notions used by the statements -/

/-- Number of descriptors of the handle of the object, 0 for a null handle. -/
def GraphicBuffer.handleNumFds (gb : GraphicBuffer) : Nat :=
  match gb.handle with
  | some h => h.numFds.toNat
  | none => 0

/-- Number of integers of the handle of the object, 0 for a null handle. -/
def GraphicBuffer.handleNumInts (gb : GraphicBuffer) : Nat :=
  match gb.handle with
  | some h => h.numInts.toNat
  | none => 0

/-- Descriptors of the handle of the object, none for a null handle. -/
def GraphicBuffer.fdPayload (gb : GraphicBuffer) : List Int :=
  match gb.handle with
  | some h => h.fdPayload
  | none => []

/-- Integers of the handle of the object, none for a null handle. -/
def GraphicBuffer.intPayload (gb : GraphicBuffer) : List Int :=
  match gb.handle with
  | some h => h.intPayload
  | none => []

/-- The twelve header values of the wire format as the specification lists them
(section 4.5): the magic, width, height, stride, format, layerCount, usage, the high
32 bits of the id, the low 32 bits of the id, generationNumber, and the numFds and
numInts of the handle.  Each entry is the value of the field itself, without any
conversion. -/
def GraphicBuffer.wireHeader (gb : GraphicBuffer) : List Int :=
  [GBFR, gb.width, gb.height, gb.stride, gb.format, (gb.layerCount : Int), gb.usage,
   ((gb.mId / 4294967296 : Nat) : Int), ((gb.mId % 4294967296 : Nat) : Int),
   (gb.mGenerationNumber : Int), gb.handleNumFds, gb.handleNumInts]

/-- The twelve header words found at byte address `base`, each read in the signedness
of the field it carries: words 5, 7, 8 and 9 (layerCount, the two halves of the id and
generationNumber, all unsigned) as unsigned 32-bit words, the other words as `int`. -/
def loadHeader (m : Mem) (base : Nat) : List Int :=
  [loadWord m base 0, loadWord m base 1, loadWord m base 2, loadWord m base 3,
   loadWord m base 4, (toUInt32 (loadWord m base 5) : Int), loadWord m base 6,
   (toUInt32 (loadWord m base 7) : Int), (toUInt32 (loadWord m base 8) : Int),
   (toUInt32 (loadWord m base 9) : Int), loadWord m base 10, loadWord m base 11]

/-- Flatten `gb` at the cursors `c`, then unflatten what was written into `fresh`
with the cursors `cu` (which the statements place where `flatten` started). -/
def flattenThenUnflatten (b : Build) (env : Collaborators) (gb fresh : GraphicBuffer)
    (mem fdMem : Mem) (c cu : Cursors) :
    status_t × GraphicBuffer × Cursors × List Event :=
  fresh.unflatten b env (gb.flatten b.abi mem fdMem c).2.1 (gb.flatten b.abi mem fdMem c).2.2.1 cu

/-! ## Concrete inputs used by the witnesses and counterexamples -/

/-- Collaborators that always succeed; the clone of a handle is the handle itself. -/
def okEnv : Collaborators :=
  { native_handle_create := fun _ _ => true
    native_handle_clone := fun h => h
    importBuffer := fun _ => NO_ERROR }

/-- Collaborators whose mapper refuses every import with status -1. -/
def failingImportEnv : Collaborators :=
  { native_handle_create := fun _ _ => true
    native_handle_clone := fun h => h
    importBuffer := fun _ => -1 }

/-- A handle with one descriptor and two integers. -/
def sampleHandle : native_handle := { numFds := 1, numInts := 2, data := [7, 100, 200] }

/-- A process with identifier 1234 that has not constructed any buffer yet. -/
def sampleProcess : Process := { pid := 1234, nextId := 0 }

/-- A 64-bit build without `EGL_NEEDS_HANDLE`. -/
def lp64Build : Build := { abi := Abi.lp64, EGL_NEEDS_HANDLE := false }

/-- Memory holding 0 everywhere. -/
def zeroMem : Mem := fun _ => 0

/-- Cursors at byte address 1000 with 64 bytes, and at descriptor 0 with 4 entries. -/
def sampleCursors : Cursors := { buffer := 1000, size := 64, fds := 0, count := 4 }

/-- A 640x480 buffer adopted from a platform descriptor that carries `sampleHandle`. -/
def sampleBuffer : GraphicBuffer :=
  (GraphicBuffer.ofNativeBuffer sampleProcess
    { width := 640, height := 480, stride := 640, format := 1, layerCount := 1, usage := 3,
      handle := some sampleHandle } true).1

/-- The same buffer adopted from a descriptor whose `layerCount` is 2^32. -/
def wideLayerBuffer : GraphicBuffer :=
  (GraphicBuffer.ofNativeBuffer sampleProcess
    { width := 640, height := 480, stride := 640, format := 1, layerCount := 4294967296,
      usage := 3, handle := some sampleHandle } true).1

/-- A buffer adopted from a descriptor with a null handle and non-zero geometry. -/
def nullHandleBuffer : GraphicBuffer :=
  (GraphicBuffer.ofNativeBuffer sampleProcess
    { width := 640, height := 480, stride := 640, format := 1, layerCount := 1, usage := 3,
      handle := none } false).1

/-- A header announcing 4096 descriptors. -/
def oversizedHeader : Mem := storeWord (storeWord zeroMem 1000 0 GBFR) 1000 10 4096

/-! ## Sequences of constructions, and reachable states -/

/-- The process after `n` objects have been constructed in it: every constructor calls
`getUniqueId` exactly once. -/
def Process.afterConstructions (p : Process) : Nat → Process
  | 0 => p
  | n + 1 => (getUniqueId (p.afterConstructions n)).2

/-- The id given to the object constructed after `n` earlier constructions. -/
def constructedId (p : Process) (n : Nat) : Nat :=
  (getUniqueId (p.afterConstructions n)).1

/-- The property of claim C16: a null handle comes with width, height, stride, format,
layerCount and usage all 0. -/
def GraphicBuffer.nullHandleZeroGeometry (gb : GraphicBuffer) : Prop :=
  gb.handle = none →
    gb.width = 0 ∧ gb.height = 0 ∧ gb.stride = 0 ∧ gb.format = 0 ∧ gb.layerCount = 0 ∧
      gb.usage = 0

/-- The contract of the allocator in the specification (section 6): `alloc` yields a
handle or an error, so a call that reports success leaves a non-null handle. -/
def Allocator.Sound (al : Allocator) : Prop :=
  ∀ w h f u hd, (al.alloc w h f u hd).err = NO_ERROR → (al.alloc w h f u hd).handle ≠ none

/-- The states of claim C16 as stated: reachable from any construction path by any
sequence of reallocate and unflatten calls, with any collaborator outcomes. -/
inductive Reachable (b : Build) : GraphicBuffer → Prop where
  | new (p : Process) : Reachable b (GraphicBuffer.new p).1
  | ofSize (al : Allocator) (p : Process) (inWidth inHeight : Nat) (inFormat : Int)
      (inLayerCount usage : Nat) :
      Reachable b (GraphicBuffer.ofSize al p inWidth inHeight inFormat inLayerCount usage).1
  | wrap (env : Collaborators) (p : Process) (handle : Option native_handle)
      (method : HandleWrapMethod) (width height : Nat) (format : Int)
      (layerCount usage stride : Nat) :
      Reachable b
        (GraphicBuffer.wrap env p handle method width height format layerCount usage stride).1
  | ofNativeBuffer (p : Process) (buffer : ANativeWindowBuffer) (keepOwnership : Bool) :
      Reachable b (GraphicBuffer.ofNativeBuffer p buffer keepOwnership).1
  | reallocate (gb : GraphicBuffer) (al : Allocator) (inWidth inHeight : Nat) (inFormat : Int)
      (inLayerCount inUsage : Nat) :
      Reachable b gb →
      Reachable b (gb.reallocate al inWidth inHeight inFormat inLayerCount inUsage).2.1
  | unflatten (gb : GraphicBuffer) (env : Collaborators) (mem fdMem : Mem) (c : Cursors) :
      Reachable b gb → Reachable b (gb.unflatten b env mem fdMem c).2.1

/-- The states of claim C16 as amended: the handle given to a wrapping or adopting
constructor is non-null, allocators honour their contract, and a reallocate call that
has a handle to lose is one whose allocation succeeds. -/
inductive ReachableByDesign (b : Build) : GraphicBuffer → Prop where
  | new (p : Process) : ReachableByDesign b (GraphicBuffer.new p).1
  | ofSize (al : Allocator) (p : Process) (inWidth inHeight : Nat) (inFormat : Int)
      (inLayerCount usage : Nat) :
      al.Sound →
      ReachableByDesign b
        (GraphicBuffer.ofSize al p inWidth inHeight inFormat inLayerCount usage).1
  | wrap (env : Collaborators) (p : Process) (handle : Option native_handle)
      (method : HandleWrapMethod) (width height : Nat) (format : Int)
      (layerCount usage stride : Nat) :
      handle ≠ none →
      ReachableByDesign b
        (GraphicBuffer.wrap env p handle method width height format layerCount usage stride).1
  | ofNativeBuffer (p : Process) (buffer : ANativeWindowBuffer) (keepOwnership : Bool) :
      buffer.handle ≠ none →
      ReachableByDesign b (GraphicBuffer.ofNativeBuffer p buffer keepOwnership).1
  | reallocate (gb : GraphicBuffer) (al : Allocator) (inWidth inHeight : Nat) (inFormat : Int)
      (inLayerCount inUsage : Nat) :
      al.Sound →
      ((al.alloc inWidth inHeight inFormat (inUsage % 4294967296) none).err = NO_ERROR ∨
        gb.handle = none) →
      ReachableByDesign b gb →
      ReachableByDesign b (gb.reallocate al inWidth inHeight inFormat inLayerCount inUsage).2.1
  | unflatten (gb : GraphicBuffer) (env : Collaborators) (mem fdMem : Mem) (c : Cursors) :
      ReachableByDesign b gb → ReachableByDesign b (gb.unflatten b env mem fdMem c).2.1

/-! ## Further concrete inputs -/

/-- An allocator that always succeeds with `sampleHandle` and a stride of 640. -/
def okAllocator : Allocator :=
  { alloc := fun _ _ _ _ _ => { err := NO_ERROR, handle := some sampleHandle, stride := 640 } }

/-- An allocator that always fails with `NO_MEMORY`, leaving the handle as it was. -/
def failingAllocator : Allocator :=
  { alloc := fun _ _ _ _ h => { err := NO_MEMORY, handle := h, stride := 0 } }

/-- A mapper whose lock operations all succeed. -/
def okMapper : Mapper :=
  { lock := fun _ _ _ => NO_ERROR
    lockYCbCr := fun _ _ _ => NO_ERROR
    lockAsync := fun _ _ _ _ => NO_ERROR
    lockAsyncYCbCr := fun _ _ _ _ => NO_ERROR }

/-- A 640x480 buffer allocated by size (ownership mode ownData) with usage 3. -/
def ownedBuffer : GraphicBuffer :=
  (GraphicBuffer.ofSize okAllocator sampleProcess 640 480 1 1 3).1

/-- A 64-bit build that defines `EGL_NEEDS_HANDLE`. -/
def eglBuild : Build := { abi := Abi.lp64, EGL_NEEDS_HANDLE := true }

/-- A header with the magic word whose word 10 (numFds) is -1. -/
def negativeCountHeader : Mem := storeWord (storeWord zeroMem 1000 0 GBFR) 1000 10 (-1)

/-! # Theorems -/

/-! ## Machine integer lemmas -/

theorem sizeModulus_ge (abi : Abi) : 4294967296 ≤ abi.sizeModulus := by
  cases abi <;> simp only [Abi.sizeModulus] <;> omega

theorem toSizeT_natCast (abi : Abi) (n : Nat) (h : n < 4294967296) :
    toSizeT abi (n : Int) = n := by
  cases abi <;> simp only [toSizeT, Abi.sizeModulus] <;> omega

theorem toInt32_natCast (n : Nat) (h : n < 2147483648) : toInt32 (n : Int) = n := by
  simp only [toInt32]
  omega

theorem toInt32_toNat (x : Int) (h0 : 0 ≤ x) (h1 : x < 4096) :
    toInt32 ((x.toNat : Nat) : Int) = x := by
  simp only [toInt32]
  omega

theorem toInt32_zero : toInt32 0 = 0 := by
  decide

theorem shr32 (n : Nat) : n >>> 32 = n / 4294967296 := by
  rw [Nat.shiftRight_eq_div_pow]

theorem and32 (n : Nat) : n &&& 0xFFFFFFFF = n % 4294967296 := by
  have := Nat.and_pow_two_sub_one_eq_mod n 32
  simpa using this

theorem layerCount_restored (abi : Abi) (lc : Nat) (hlc : lc < abi.sizeModulus)
    (h : abi = Abi.ilp32 ∨ lc < 2147483648) :
    toSizeT abi (toInt32 (lc : Int)) = lc := by
  cases abi
  · simp only [toSizeT, toInt32, Abi.sizeModulus] at hlc ⊢
    omega
  · have h2 : lc < 2147483648 := by
      rcases h with h | h
      · cases h
      · exact h
    simp only [toSizeT, toInt32, Abi.sizeModulus]
    omega

theorem toUInt32_toInt32 (n : Nat) :
    toUInt32 (toInt32 (n : Int)) = n % 4294967296 := by
  simp only [toUInt32, toInt32]
  omega

theorem generation_restored (g : Nat) (h : g < 4294967296) :
    toUInt32 (toInt32 (g : Int)) = g := by
  simp only [toUInt32, toInt32]
  omega

theorem id_restored (id : Nat) (h : id < 18446744073709551616) :
    ((toUInt64 (toInt32 ((id / 4294967296 : Nat) : Int)) <<< 32) % 18446744073709551616)
      ||| toUInt32 (toInt32 ((id % 4294967296 : Nat) : Int)) = id := by
  have hq : id / 4294967296 < 4294967296 := by omega
  have hr : id % 4294967296 < 4294967296 := by omega
  rw [generation_restored _ hr]
  have hhi : (toUInt64 (toInt32 ((id / 4294967296 : Nat) : Int)) <<< 32) % 18446744073709551616
      = 2 ^ 32 * (id / 4294967296) := by
    rw [Nat.shiftLeft_eq]
    generalize id / 4294967296 = q at hq ⊢
    simp only [toUInt64, toInt32]
    norm_num
    omega
  rw [hhi, ← Nat.mul_add_lt_is_or (by norm_num; exact hr)]
  norm_num
  omega

/-! ## Memory lemmas -/

theorem storeWord_apply (m : Mem) (b i j : Nat) (v : Int) :
    storeWord m b i v (b + 4 * j) = if j = i then v else m (b + 4 * j) := by
  unfold storeWord
  by_cases h : j = i
  · simp [h]
  · have : ¬ (b + 4 * j = b + 4 * i) := by omega
    simp [h, this]

theorem memcpyToWords_apply (m : Mem) (b : Nat) (src : List Int) (s n j : Nat) :
    memcpyToWords m b src s n (b + 4 * j) = if j < n then src.getD (s + j) 0 else m (b + 4 * j) := by
  unfold memcpyToWords
  have h1 : (b + 4 * j - b) % 4 = 0 := by omega
  have h2 : (b + 4 * j - b) / 4 = j := by omega
  simp [h1, h2]

theorem memcpyToFds_apply (m : Mem) (b : Nat) (src : List Int) (s n j : Nat) :
    memcpyToFds m b src s n (b + j) = if j < n then src.getD (s + j) 0 else m (b + j) := by
  unfold memcpyToFds
  simp

theorem map_getD_eq_take_drop (src : List Int) (s n : Nat) (h : s + n ≤ src.length) :
    (List.range n).map (fun j => src.getD (s + j) 0) = (src.drop s).take n := by
  apply List.ext_getElem
  · simp; omega
  · intro i h1 h2
    simp at h1 h2
    simp [List.getElem_take, List.getElem_drop]
    rw [List.getElem?_eq_getElem (by omega)]
    rfl

theorem loadWords_memcpy (m : Mem) (b : Nat) (src : List Int) (s n : Nat)
    (h : s + n ≤ src.length) :
    loadWords (memcpyToWords m b src s n) b n = (src.drop s).take n := by
  rw [← map_getD_eq_take_drop src s n h]
  unfold loadWords
  apply List.map_congr_left
  intro j hj
  rw [memcpyToWords_apply]
  simp at hj
  simp [hj]

theorem loadFds_memcpy (m : Mem) (b : Nat) (src : List Int) (n : Nat)
    (h : n ≤ src.length) :
    loadFds (memcpyToFds m b src 0 n) b n = src.take n := by
  have := map_getD_eq_take_drop src 0 n (by omega)
  simp only [List.drop_zero] at this
  rw [← this]
  unfold loadFds
  apply List.map_congr_left
  intro j hj
  rw [memcpyToFds_apply]
  simp at hj
  simp [hj]

theorem loadWord_storeWord (m : Mem) (b i j : Nat) (v : Int) :
    loadWord (storeWord m b i v) b j = if j = i then v else loadWord m b j := by
  unfold loadWord
  exact storeWord_apply m b i j v

theorem loadWord_memcpyToWords_header (m : Mem) (b : Nat) (src : List Int) (s n j : Nat)
    (hj : j < 12) :
    loadWord (memcpyToWords m (b + 4 * 12) src s n) b j = loadWord m b j := by
  unfold loadWord memcpyToWords
  have : ¬ (b + 4 * 12 ≤ b + 4 * j) := by omega
  simp only [this, false_and, if_false]

theorem loadWords_twelve (m : Mem) (b : Nat) :
    loadWords m b 12 =
      [loadWord m b 0, loadWord m b 1, loadWord m b 2, loadWord m b 3, loadWord m b 4,
       loadWord m b 5, loadWord m b 6, loadWord m b 7, loadWord m b 8, loadWord m b 9,
       loadWord m b 10, loadWord m b 11] := by
  rfl

theorem take_append_take_drop (l : List Int) (a n : Nat) (h : l.length = a + n) :
    l.take a ++ (l.drop a).take n = l := by
  have : (l.drop a).take n = l.drop a := by
    apply List.take_of_length_le
    simp only [List.length_drop]
    omega
  rw [this, List.take_append_drop]

/-! ## Lemmas on flatten -/

theorem memcpyInts_eq (abi : Abi) (h : native_handle) (hw : h.WF abi) :
    memcpyInts abi h.numFds = h.numFds.toNat ∧ memcpyInts abi h.numInts = h.numInts.toNat := by
  unfold native_handle.WF at hw
  unfold memcpyInts
  cases abi <;> simp only [toSizeT, Abi.sizeModulus] at hw ⊢ <;> omega

theorem getFlattenedSize_eq (abi : Abi) (gb : GraphicBuffer)
    (hwf : ∀ h, gb.handle = some h → h.WF abi) :
    gb.getFlattenedSize abi = (12 + gb.handleNumInts) * 4 := by
  unfold GraphicBuffer.getFlattenedSize GraphicBuffer.handleNumInts
  cases hh : gb.handle with
  | none => cases abi <;> simp [toSizeT, Abi.sizeModulus]
  | some h =>
    have hw := hwf h hh
    unfold native_handle.WF at hw
    cases abi <;> simp only [toSizeT, Abi.sizeModulus] at hw ⊢ <;> omega

theorem getFdCount_eq (abi : Abi) (gb : GraphicBuffer)
    (hwf : ∀ h, gb.handle = some h → h.WF abi) :
    gb.getFdCount abi = gb.handleNumFds := by
  unfold GraphicBuffer.getFdCount GraphicBuffer.handleNumFds
  cases hh : gb.handle with
  | none => cases abi <;> simp [toSizeT, Abi.sizeModulus]
  | some h =>
    have hw := hwf h hh
    unfold native_handle.WF at hw
    cases abi <;> simp only [toSizeT, Abi.sizeModulus] at hw ⊢ <;> omega

theorem flatten_result (abi : Abi) (gb : GraphicBuffer) (mem fdMem : Mem) (c : Cursors)
    (hwf : ∀ h, gb.handle = some h → h.WF abi) :
    gb.getFlattenedSize abi = (12 + gb.handleNumInts) * 4 ∧
    gb.getFdCount abi = gb.handleNumFds ∧
    ((gb.flatten abi mem fdMem c).1 = NO_MEMORY ↔
      (c.size < (12 + gb.handleNumInts) * 4 ∨ c.count < gb.handleNumFds)) ∧
    ((c.size < (12 + gb.handleNumInts) * 4 ∨ c.count < gb.handleNumFds) →
      gb.flatten abi mem fdMem c = (NO_MEMORY, mem, fdMem, c)) ∧
    (¬ (c.size < (12 + gb.handleNumInts) * 4 ∨ c.count < gb.handleNumFds) →
      (gb.flatten abi mem fdMem c).1 = NO_ERROR ∧
      (gb.flatten abi mem fdMem c).2.2.2 =
        { buffer := c.buffer + (12 + gb.handleNumInts) * 4,
          size := c.size - (12 + gb.handleNumInts) * 4,
          fds := c.fds + gb.handleNumFds,
          count := c.count - gb.handleNumFds }) := by
  have hs := getFlattenedSize_eq abi gb hwf
  have hf := getFdCount_eq abi gb hwf
  have key1 : (c.size < (12 + gb.handleNumInts) * 4 ∨ c.count < gb.handleNumFds) →
      gb.flatten abi mem fdMem c = (NO_MEMORY, mem, fdMem, c) := by
    intro h
    unfold GraphicBuffer.flatten
    simp only [hs, hf]
    rcases h with h | h
    · simp [h]
    · by_cases h2 : c.size < (12 + gb.handleNumInts) * 4
      · simp [h2]
      · simp [h2, h]
  have key2 : ¬ (c.size < (12 + gb.handleNumInts) * 4 ∨ c.count < gb.handleNumFds) →
      (gb.flatten abi mem fdMem c).1 = NO_ERROR ∧
      (gb.flatten abi mem fdMem c).2.2.2 =
        { buffer := c.buffer + (12 + gb.handleNumInts) * 4,
          size := c.size - (12 + gb.handleNumInts) * 4,
          fds := c.fds + gb.handleNumFds,
          count := c.count - gb.handleNumFds } := by
    intro h
    have h1 : ¬ c.size < (12 + gb.handleNumInts) * 4 := fun x => h (Or.inl x)
    have h2 : ¬ c.count < gb.handleNumFds := fun x => h (Or.inr x)
    unfold GraphicBuffer.flatten
    simp only [hs, hf, h1, h2, if_false]
    refine ⟨trivial, ?_⟩
    cases hh : gb.handle with
    | none => simp [GraphicBuffer.handleNumFds, hh]
    | some hd =>
      have hw := hwf hd hh
      have hfd : toSizeT abi hd.numFds = hd.numFds.toNat := by
        have := hf
        simp only [GraphicBuffer.getFdCount, GraphicBuffer.handleNumFds, hh] at this
        exact this
      unfold native_handle.WF at hw
      simp only [GraphicBuffer.handleNumFds, hh, hfd]
      congr 1
      omega
  refine ⟨hs, hf, ⟨?_, ?_⟩, key1, key2⟩
  · intro h
    by_contra hn
    have := (key2 hn).1
    rw [this] at h
    exact absurd h (by decide)
  · intro h
    rw [key1 h]

theorem flatten_header (abi : Abi) (gb : GraphicBuffer) (mem fdMem : Mem) (c : Cursors)
    (hwf : ∀ h, gb.handle = some h → h.WF abi)
    (hsize : (12 + gb.handleNumInts) * 4 ≤ c.size) (hcount : gb.handleNumFds ≤ c.count) :
    loadWord (gb.flatten abi mem fdMem c).2.1 c.buffer 0 = GBFR ∧
    loadWord (gb.flatten abi mem fdMem c).2.1 c.buffer 1 = gb.width ∧
    loadWord (gb.flatten abi mem fdMem c).2.1 c.buffer 2 = gb.height ∧
    loadWord (gb.flatten abi mem fdMem c).2.1 c.buffer 3 = gb.stride ∧
    loadWord (gb.flatten abi mem fdMem c).2.1 c.buffer 4 = gb.format ∧
    loadWord (gb.flatten abi mem fdMem c).2.1 c.buffer 5 = toInt32 gb.layerCount ∧
    loadWord (gb.flatten abi mem fdMem c).2.1 c.buffer 6 = gb.usage ∧
    loadWord (gb.flatten abi mem fdMem c).2.1 c.buffer 7
      = toInt32 ((gb.mId / 4294967296 : Nat) : Int) ∧
    loadWord (gb.flatten abi mem fdMem c).2.1 c.buffer 8
      = toInt32 ((gb.mId % 4294967296 : Nat) : Int) ∧
    loadWord (gb.flatten abi mem fdMem c).2.1 c.buffer 9 = toInt32 gb.mGenerationNumber ∧
    loadWord (gb.flatten abi mem fdMem c).2.1 c.buffer 10 = gb.handleNumFds ∧
    loadWord (gb.flatten abi mem fdMem c).2.1 c.buffer 11 = gb.handleNumInts := by
  have hs := getFlattenedSize_eq abi gb hwf
  have hf := getFdCount_eq abi gb hwf
  have h1 : ¬ c.size < (12 + gb.handleNumInts) * 4 := by omega
  have h2 : ¬ c.count < gb.handleNumFds := by omega
  unfold GraphicBuffer.flatten
  simp only [hs, hf, h1, h2, if_false]
  cases hh : gb.handle with
  | none =>
    simp only [loadWord_storeWord, Nat.reduceEqDiff, if_true, if_false, shr32, and32,
      GraphicBuffer.handleNumFds, GraphicBuffer.handleNumInts, hh, Nat.cast_zero, and_self]
  | some hd =>
    have hw := hwf hd hh
    unfold native_handle.WF at hw
    have e1 : ((hd.numFds.toNat : Nat) : Int) = hd.numFds := by omega
    have e2 : ((hd.numInts.toNat : Nat) : Int) = hd.numInts := by omega
    simp only [loadWord_memcpyToWords_header, Nat.reduceLT, loadWord_storeWord,
      Nat.reduceEqDiff, if_true, if_false, shr32, and32,
      GraphicBuffer.handleNumFds, GraphicBuffer.handleNumInts, hh, e1, e2, and_self]

theorem flatten_payload (abi : Abi) (gb : GraphicBuffer) (mem fdMem : Mem) (c : Cursors)
    (hwf : ∀ h, gb.handle = some h → h.WF abi)
    (hsize : (12 + gb.handleNumInts) * 4 ≤ c.size) (hcount : gb.handleNumFds ≤ c.count) :
    (gb.flatten abi mem fdMem c).1 = NO_ERROR ∧
    loadWords (gb.flatten abi mem fdMem c).2.1 (c.buffer + 4 * 12) gb.handleNumInts
      = gb.intPayload ∧
    loadFds (gb.flatten abi mem fdMem c).2.2.1 c.fds gb.handleNumFds = gb.fdPayload := by
  have hs := getFlattenedSize_eq abi gb hwf
  have hf := getFdCount_eq abi gb hwf
  have h1 : ¬ c.size < (12 + gb.handleNumInts) * 4 := by omega
  have h2 : ¬ c.count < gb.handleNumFds := by omega
  unfold GraphicBuffer.flatten
  simp only [hs, hf, h1, h2, if_false]
  refine ⟨trivial, ?_⟩
  cases hh : gb.handle with
  | none =>
    refine ⟨?_, ?_⟩
    · simp only [GraphicBuffer.handleNumInts, GraphicBuffer.intPayload, hh]
      rfl
    · simp only [GraphicBuffer.handleNumFds, GraphicBuffer.fdPayload, hh]
      rfl
  | some hd =>
    have hw := hwf hd hh
    obtain ⟨e1, e2⟩ := memcpyInts_eq abi hd hw
    unfold native_handle.WF at hw
    refine ⟨?_, ?_⟩
    · simp only [GraphicBuffer.handleNumInts, GraphicBuffer.intPayload, hh, e2,
        native_handle.intPayload]
      apply loadWords_memcpy
      omega
    · simp only [GraphicBuffer.handleNumFds, GraphicBuffer.fdPayload, hh, e1,
        native_handle.fdPayload]
      apply loadFds_memcpy
      omega

/-! ## Lemmas on unflatten and initWithHandle -/

theorem new_handle (p : Process) : (GraphicBuffer.new p).1.handle = none := rfl

theorem unflatten_success (b : Build) (env : Collaborators) (gb : GraphicBuffer)
    (mem fdMem : Mem) (c : Cursors)
    (hmagic : loadWord mem c.buffer 0 = GBFR)
    (hf : wireNumFds b.abi mem c < 4096) (hi : wireNumInts b.abi mem c < 4084)
    (hs : (12 + wireNumInts b.abi mem c) * 4 ≤ c.size)
    (hc : wireNumFds b.abi mem c ≤ c.count)
    (hnone : gb.handle = none)
    (hnz : wireNumFds b.abi mem c ≠ 0 ∨ wireNumInts b.abi mem c ≠ 0)
    (hcreate : env.native_handle_create (toInt32 (wireNumFds b.abi mem c))
      (toInt32 (wireNumInts b.abi mem c)) = true)
    (himport : env.importBuffer (some
      { numFds := toInt32 (wireNumFds b.abi mem c), numInts := toInt32 (wireNumInts b.abi mem c),
        data := loadFds fdMem c.fds (wireNumFds b.abi mem c) ++
          loadWords mem (c.buffer + 4 * 12) (wireNumInts b.abi mem c) }) = NO_ERROR) :
    gb.unflatten b env mem fdMem c =
      (NO_ERROR,
       { gb with width := loadWord mem c.buffer 1, height := loadWord mem c.buffer 2,
                 stride := loadWord mem c.buffer 3, format := loadWord mem c.buffer 4,
                 layerCount := toSizeT b.abi (loadWord mem c.buffer 5),
                 usage := loadWord mem c.buffer 6,
                 handle := some
                   { numFds := toInt32 (wireNumFds b.abi mem c),
                     numInts := toInt32 (wireNumInts b.abi mem c),
                     data := loadFds fdMem c.fds (wireNumFds b.abi mem c) ++
                       loadWords mem (c.buffer + 4 * 12) (wireNumInts b.abi mem c) },
                 mId := ((toUInt64 (loadWord mem c.buffer 7) <<< 32)
                           % 18446744073709551616) ||| toUInt32 (loadWord mem c.buffer 8),
                 mGenerationNumber := toUInt32 (loadWord mem c.buffer 9),
                 mOwner := Owner.ownHandle },
       { buffer := c.buffer + (12 + wireNumInts b.abi mem c) * 4,
         size := c.size - (12 + wireNumInts b.abi mem c) * 4,
         fds := c.fds + wireNumFds b.abi mem c,
         count := c.count - wireNumFds b.abi mem c },
       [Event.native_handle_create (toInt32 (wireNumFds b.abi mem c))
          (toInt32 (wireNumInts b.abi mem c)),
        Event.importBuffer (some
          { numFds := toInt32 (wireNumFds b.abi mem c),
            numInts := toInt32 (wireNumInts b.abi mem c),
            data := loadFds fdMem c.fds (wireNumFds b.abi mem c) ++
              loadWords mem (c.buffer + 4 * 12) (wireNumInts b.abi mem c) })]) := by
  unfold GraphicBuffer.unflatten
  have h1 : ¬ c.size < 12 * 4 := by omega
  have h2 : ¬ (wireNumFds b.abi mem c ≥ 4096 ∨ wireNumInts b.abi mem c ≥ 4096 - 12) := by
    omega
  have h3 : (12 + wireNumInts b.abi mem c) * 4 % b.abi.sizeModulus
      = (12 + wireNumInts b.abi mem c) * 4 := by
    apply Nat.mod_eq_of_lt
    have := sizeModulus_ge b.abi
    omega
  have h4 : ¬ c.size < (12 + wireNumInts b.abi mem c) * 4 := by omega
  have h5 : ¬ c.count < wireNumFds b.abi mem c := by omega
  simp only [h1, if_false, hmagic, ne_eq, not_true_eq_false, h2, h3, h4, h5, hnone,
    Option.isSome_none, Bool.false_eq_true, hnz, if_true, hcreate, himport,
    List.nil_append, List.cons_append, Bool.true_eq_false]

theorem unflatten_success_null (b : Build) (env : Collaborators) (gb : GraphicBuffer)
    (mem fdMem : Mem) (c : Cursors)
    (hsize : 48 ≤ c.size)
    (hmagic : loadWord mem c.buffer 0 = GBFR)
    (hf : wireNumFds b.abi mem c = 0) (hi : wireNumInts b.abi mem c = 0)
    (hnone : gb.handle = none) :
    gb.unflatten b env mem fdMem c =
      (NO_ERROR,
       { gb.clear with
           mId := ((toUInt64 (loadWord mem c.buffer 7) <<< 32)
                     % 18446744073709551616) ||| toUInt32 (loadWord mem c.buffer 8),
           mGenerationNumber := toUInt32 (loadWord mem c.buffer 9),
           mOwner := Owner.ownHandle },
       { buffer := c.buffer + 48, size := c.size - 48, fds := c.fds, count := c.count },
       []) := by
  unfold GraphicBuffer.unflatten
  have h1 : ¬ c.size < 12 * 4 := by omega
  have h3 : (12 + 0) * 4 % b.abi.sizeModulus = 48 := by
    apply Nat.mod_eq_of_lt
    have := sizeModulus_ge b.abi
    omega
  have h4 : ¬ c.size < 48 := by omega
  simp only [h1, if_false, hmagic, ne_eq, not_true_eq_false, hf, hi, h3, h4, hnone,
    Option.isSome_none, Bool.false_eq_true, ge_iff_le, Nat.reduceLeDiff, Nat.reduceSub,
    or_self, not_lt_zero', Nat.add_zero, Nat.sub_zero]

theorem initWithHandle_wrap (env : Collaborators) (gb : GraphicBuffer)
    (handle : Option native_handle) (width height : Nat) (format : Int)
    (layerCount usage stride : Nat) :
    gb.initWithHandle env handle HandleWrapMethod.WRAP_HANDLE width height format layerCount
        usage stride =
      (NO_ERROR,
       { gb with width := toInt32 width, height := toInt32 height, stride := toInt32 stride,
                 format := format, usage := toInt32 usage, layerCount := layerCount,
                 handle := handle, mOwner := Owner.ownNone }, []) := by
  rw [GraphicBuffer.initWithHandle]
  simp

theorem unflatten_ceiling (b : Build) (env : Collaborators) (gb : GraphicBuffer)
    (mem fdMem : Mem) (c : Cursors)
    (hsize : 48 ≤ c.size) (hmagic : loadWord mem c.buffer 0 = GBFR)
    (h : 4096 ≤ wireNumFds b.abi mem c ∨ 4084 ≤ wireNumInts b.abi mem c) :
    gb.unflatten b env mem fdMem c = (BAD_VALUE, gb.clear, c, []) := by
  unfold GraphicBuffer.unflatten
  have h1 : ¬ c.size < 12 * 4 := by omega
  have h2 : (wireNumFds b.abi mem c ≥ 4096 ∨ wireNumInts b.abi mem c ≥ 4096 - 12) := by
    omega
  simp only [h1, if_false, hmagic, ne_eq, not_true_eq_false, h2, if_true]

theorem initWithHandle_failed_import (env : Collaborators) (gb : GraphicBuffer)
    (handle : Option native_handle) (method : HandleWrapMethod) (width height : Nat)
    (format : Int) (layerCount usage stride : Nat) (e : status_t) (he : e ≠ NO_ERROR)
    (hm : (method = HandleWrapMethod.TAKE_UNREGISTERED_HANDLE ∧ env.importBuffer handle = e) ∨
      (method = HandleWrapMethod.CLONE_HANDLE ∧ ∃ cl, env.native_handle_clone handle = some cl ∧
        env.importBuffer (some cl) = e)) :
    (gb.initWithHandle env handle method width height format layerCount usage stride).1 = e ∧
    (gb.initWithHandle env handle method width height format layerCount usage stride).2.1 =
      { gb with width := 0, height := 0, stride := 0, format := 0, usage := 0,
                layerCount := 0, handle := none, mOwner := Owner.ownNone } ∧
    (method = HandleWrapMethod.TAKE_UNREGISTERED_HANDLE →
      (gb.initWithHandle env handle method width height format layerCount usage stride).2.2
        = [Event.importBuffer handle]) ∧
    (method = HandleWrapMethod.CLONE_HANDLE →
      (gb.initWithHandle env handle method width height format layerCount usage stride).2.2
        = [Event.native_handle_clone handle,
           Event.importBuffer (env.native_handle_clone handle),
           Event.native_handle_close (env.native_handle_clone handle),
           Event.native_handle_delete (env.native_handle_clone handle)] ∧
      (gb.initWithHandle env handle method width height format layerCount usage stride).2.2.count
          (Event.native_handle_close (env.native_handle_clone handle)) = 1 ∧
      (gb.initWithHandle env handle method width height format layerCount usage stride).2.2.count
          (Event.native_handle_delete (env.native_handle_clone handle)) = 1) := by
  rcases hm with ⟨hm, hi⟩ | ⟨hm, cl, hc, hi⟩
  · subst hm
    rw [GraphicBuffer.initWithHandle]
    simp [hi, he, initWithHandle_wrap, toInt32_zero]
  · subst hm
    rw [GraphicBuffer.initWithHandle]
    simp [hi, he, hc, initWithHandle_wrap, toInt32_zero]

/-! ## The claims -/

/-- Claim C1, as amended: round trip with a handle.  For every well-typed buffer
whose handle carries numFds descriptors and numInts integers, not both zero, with
numFds < 4096 and numInts < 4084, whose layerCount is below 2^31 or whose target has a
32-bit uintptr_t, for every caller buffer of at least (12 + numInts) * 4 bytes and
descriptor array of at least numFds entries, flatten succeeds, and unflatten of the
produced words and descriptors into a freshly constructed object (handle creation and
mapper import succeeding) succeeds and yields an object with the same width, height,
stride, format, layerCount, usage, id and generationNumber and an equal handle; both
calls advance buffer and fds by (12 + numInts) * 4 bytes and numFds entries and lower
size and count by the same amounts. -/
theorem roundtrip_with_handle (b : Build) (env : Collaborators) (gb : GraphicBuffer)
    (h : native_handle) (p : Process) (mem fdMem : Mem) (c cu : Cursors)
    (hwf : gb.WF b.abi) (hh : gb.handle = some h)
    (hnz : h.numFds ≠ 0 ∨ h.numInts ≠ 0) (hfd : h.numFds < 4096) (hint : h.numInts < 4084)
    (hlc : b.abi = Abi.ilp32 ∨ gb.layerCount < 2147483648)
    (hsize : (12 + h.numInts.toNat) * 4 ≤ c.size) (hcount : h.numFds.toNat ≤ c.count)
    (hcb : cu.buffer = c.buffer) (hcf : cu.fds = c.fds)
    (husize : (12 + h.numInts.toNat) * 4 ≤ cu.size) (hucount : h.numFds.toNat ≤ cu.count)
    (hcreate : env.native_handle_create h.numFds h.numInts = true)
    (himport : env.importBuffer (some h) = NO_ERROR) :
    (gb.flatten b.abi mem fdMem c).1 = NO_ERROR ∧
    (gb.flatten b.abi mem fdMem c).2.2.2 =
      { buffer := c.buffer + (12 + h.numInts.toNat) * 4,
        size := c.size - (12 + h.numInts.toNat) * 4,
        fds := c.fds + h.numFds.toNat, count := c.count - h.numFds.toNat } ∧
    flattenThenUnflatten b env gb (GraphicBuffer.new p).1 mem fdMem c cu =
      (NO_ERROR,
       { gb with handle := some h, mOwner := Owner.ownHandle, mInitCheck := NO_ERROR },
       { buffer := cu.buffer + (12 + h.numInts.toNat) * 4,
         size := cu.size - (12 + h.numInts.toNat) * 4,
         fds := cu.fds + h.numFds.toNat, count := cu.count - h.numFds.toNat },
       [Event.native_handle_create h.numFds h.numInts, Event.importBuffer (some h)]) := by
  obtain ⟨-, -, -, -, -, wlc, wid, wgen, whd⟩ := hwf
  have hwfh : ∀ x, gb.handle = some x → x.WF b.abi := whd
  have hw := whd h hh
  have eNF : gb.handleNumFds = h.numFds.toNat := by
    simp only [GraphicBuffer.handleNumFds, hh]
  have eNI : gb.handleNumInts = h.numInts.toNat := by
    simp only [GraphicBuffer.handleNumInts, hh]
  have hsize' : (12 + gb.handleNumInts) * 4 ≤ c.size := by rw [eNI]; exact hsize
  have hcount' : gb.handleNumFds ≤ c.count := by rw [eNF]; exact hcount
  have hcap := (flatten_result b.abi gb mem fdMem c hwfh).2.2.2.2 (by omega)
  unfold native_handle.WF at hw
  obtain ⟨hnf0, hni0, hlen, -⟩ := hw
  have bNF : h.numFds.toNat < 4096 := by omega
  have bNI : h.numInts.toNat < 4084 := by omega
  have bnz : h.numFds.toNat ≠ 0 ∨ h.numInts.toNat ≠ 0 := by omega
  have hlen' : h.data.length = h.numFds.toNat + h.numInts.toNat := by omega
  have cNF : toInt32 ((h.numFds.toNat : Nat) : Int) = h.numFds :=
    toInt32_toNat h.numFds hnf0 hfd
  have cNI : toInt32 ((h.numInts.toNat : Nat) : Int) = h.numInts :=
    toInt32_toNat h.numInts hni0 (Int.lt_trans hint (by decide))
  have bNF' : h.numFds.toNat < 4294967296 := Nat.lt_trans bNF (by decide)
  have bNI' : h.numInts.toNat < 4294967296 := Nat.lt_trans bNI (by decide)
  have sNF : toSizeT b.abi ((h.numFds.toNat : Nat) : Int) = h.numFds.toNat :=
    toSizeT_natCast b.abi _ bNF'
  have sNI : toSizeT b.abi ((h.numInts.toNat : Nat) : Int) = h.numInts.toNat :=
    toSizeT_natCast b.abi _ bNI'
  obtain ⟨w0, w1, w2, w3, w4, w5, w6, w7, w8, w9, w10, w11⟩ :=
    flatten_header b.abi gb mem fdMem c hwfh hsize' hcount'
  obtain ⟨fok, pints, pfds⟩ := flatten_payload b.abi gb mem fdMem c hwfh hsize' hcount'
  refine ⟨fok, ?_, ?_⟩
  · rw [hcap.2, eNF, eNI]
  · unfold flattenThenUnflatten
    rw [← hcb] at w0 w1 w2 w3 w4 w5 w6 w7 w8 w9 w10 w11 pints
    rw [← hcf] at pfds
    generalize (gb.flatten b.abi mem fdMem c).2.1 = fm at *
    generalize (gb.flatten b.abi mem fdMem c).2.2.1 = ff at *
    have hNF : wireNumFds b.abi fm cu = h.numFds.toNat := by
      unfold wireNumFds
      rw [w10, eNF, sNF]
    have hNI : wireNumInts b.abi fm cu = h.numInts.toNat := by
      unfold wireNumInts
      rw [w11, eNI, sNI]
    have hdata : loadFds ff cu.fds h.numFds.toNat ++
        loadWords fm (cu.buffer + 4 * 12) h.numInts.toNat = h.data := by
      rw [← eNF, ← eNI, pints, pfds]
      simp only [GraphicBuffer.fdPayload, GraphicBuffer.intPayload, hh,
        native_handle.fdPayload, native_handle.intPayload]
      exact take_append_take_drop _ _ _ hlen'
    have hH : (native_handle.mk (toInt32 (wireNumFds b.abi fm cu))
        (toInt32 (wireNumInts b.abi fm cu))
        (loadFds ff cu.fds (wireNumFds b.abi fm cu) ++
          loadWords fm (cu.buffer + 4 * 12) (wireNumInts b.abi fm cu))) = h := by
      rw [hNF, hNI, cNF, cNI, hdata]
    have hu := unflatten_success b env (GraphicBuffer.new p).1 fm ff cu
      w0 (by rw [hNF]; exact bNF) (by rw [hNI]; exact bNI) (by rw [hNI]; exact husize)
      (by rw [hNF]; exact hucount) (new_handle p) (by rw [hNF, hNI]; exact bnz)
      (by rw [hNF, hNI, cNF, cNI]; exact hcreate)
      (by rw [hH]; exact himport)
    rw [hu, hH, hNF, hNI, cNF, cNI, w1, w2, w3, w4, w5, w6, w7, w8, w9,
      layerCount_restored b.abi gb.layerCount wlc hlc, generation_restored _ wgen,
      id_restored _ wid]
    rfl

/-- Witness of claim C1 as amended: the round trip of `sampleBuffer` on a 64-bit
build. -/
theorem roundtrip_with_handle_witness :
    flattenThenUnflatten lp64Build okEnv sampleBuffer (GraphicBuffer.new sampleProcess).1
        zeroMem zeroMem sampleCursors sampleCursors =
      (NO_ERROR,
       { sampleBuffer with handle := some sampleHandle, mOwner := Owner.ownHandle,
                           mInitCheck := NO_ERROR },
       { buffer := sampleCursors.buffer + (12 + sampleHandle.numInts.toNat) * 4,
         size := sampleCursors.size - (12 + sampleHandle.numInts.toNat) * 4,
         fds := sampleCursors.fds + sampleHandle.numFds.toNat,
         count := sampleCursors.count - sampleHandle.numFds.toNat },
       [Event.native_handle_create sampleHandle.numFds sampleHandle.numInts,
        Event.importBuffer (some sampleHandle)]) :=
  (roundtrip_with_handle lp64Build okEnv sampleBuffer sampleHandle sampleProcess zeroMem
    zeroMem sampleCursors sampleCursors
    ⟨by decide, by decide, by decide, by decide, by decide, by decide, by decide, by decide,
      fun h hh => by cases hh; decide⟩
    rfl (by decide) (by decide) (by decide) (Or.inr (by decide)) (by decide) (by decide)
    rfl rfl (by decide) (by decide) rfl rfl).2.2

/-- Counterexample to claim C1 as stated: on a 64-bit build a well-typed buffer whose
layerCount is 2^32, with a handle of one descriptor and two integers and ample capacity,
flattens and unflattens successfully, but the object read back has layerCount 0. -/
theorem roundtrip_layerCount_counterexample :
    wideLayerBuffer.handle = some sampleHandle ∧
    sampleHandle.WF Abi.lp64 ∧ sampleHandle.numFds < 4096 ∧ sampleHandle.numInts < 4084 ∧
    wideLayerBuffer.layerCount = 4294967296 ∧
    wideLayerBuffer.layerCount < Abi.lp64.sizeModulus ∧
    (12 + sampleHandle.numInts.toNat) * 4 ≤ sampleCursors.size ∧
    sampleHandle.numFds.toNat ≤ sampleCursors.count ∧
    (wideLayerBuffer.flatten Abi.lp64 zeroMem zeroMem sampleCursors).1 = NO_ERROR ∧
    (flattenThenUnflatten lp64Build okEnv wideLayerBuffer (GraphicBuffer.new sampleProcess).1
      zeroMem zeroMem sampleCursors sampleCursors).1 = NO_ERROR ∧
    (flattenThenUnflatten lp64Build okEnv wideLayerBuffer (GraphicBuffer.new sampleProcess).1
      zeroMem zeroMem sampleCursors sampleCursors).2.1.layerCount = 0 ∧
    (flattenThenUnflatten lp64Build okEnv wideLayerBuffer (GraphicBuffer.new sampleProcess).1
      zeroMem zeroMem sampleCursors sampleCursors).2.1.layerCount
        ≠ wideLayerBuffer.layerCount := by
  decide

/-- Claim C2: count ceiling in unflatten.  For every object and every input with at
least 48 bytes available whose word 0 is the magic, if numFds (word 10 as size_t) is
at least 4096 or numInts (word 11 as size_t) is at least 4084, unflatten returns
BAD_VALUE whatever size and count are, sets width, height, stride, format, layerCount
and usage to 0 and the handle to null, and leaves the four cursors unchanged. -/
theorem unflatten_count_ceiling (b : Build) (env : Collaborators) (gb : GraphicBuffer)
    (mem fdMem : Mem) (c : Cursors)
    (hsize : 48 ≤ c.size) (hmagic : loadWord mem c.buffer 0 = GBFR)
    (h : 4096 ≤ wireNumFds b.abi mem c ∨ 4084 ≤ wireNumInts b.abi mem c) :
    (gb.unflatten b env mem fdMem c).1 = BAD_VALUE ∧
    (gb.unflatten b env mem fdMem c).2.1.width = 0 ∧
    (gb.unflatten b env mem fdMem c).2.1.height = 0 ∧
    (gb.unflatten b env mem fdMem c).2.1.stride = 0 ∧
    (gb.unflatten b env mem fdMem c).2.1.format = 0 ∧
    (gb.unflatten b env mem fdMem c).2.1.layerCount = 0 ∧
    (gb.unflatten b env mem fdMem c).2.1.usage = 0 ∧
    (gb.unflatten b env mem fdMem c).2.1.handle = none ∧
    (gb.unflatten b env mem fdMem c).2.2.1 = c := by
  rw [unflatten_ceiling b env gb mem fdMem c hsize hmagic h]
  exact ⟨rfl, rfl, rfl, rfl, rfl, rfl, rfl, rfl, rfl⟩

/-- Witness of claim C2: a header announcing 4096 descriptors. -/
theorem unflatten_count_ceiling_witness :
    (sampleBuffer.unflatten lp64Build okEnv oversizedHeader zeroMem sampleCursors).1
      = BAD_VALUE ∧
    (sampleBuffer.unflatten lp64Build okEnv oversizedHeader zeroMem sampleCursors).2.1.handle
      = none :=
  have h := unflatten_count_ceiling lp64Build okEnv sampleBuffer oversizedHeader zeroMem
    sampleCursors (by decide) (by decide) (Or.inl (by decide))
  ⟨h.1, h.2.2.2.2.2.2.2.1⟩

/-- Claim C3, the code at two failing inputs.  First, an object that owns
`sampleHandle` (mode ownHandle) is given a header announcing 4096 descriptors:
unflatten returns BAD_VALUE, the object no longer holds the handle, and no release
call was made.  Second, a fresh object unflattens a valid image while the mapper
refuses the import: unflatten returns the mapper status, the handle it created is
not held by the object, and it was neither closed nor deleted. -/
theorem unflatten_failure_paths_leak :
    (sampleBuffer.mOwner = Owner.ownHandle ∧ sampleBuffer.handle = some sampleHandle ∧
      sampleBuffer.unflatten lp64Build okEnv oversizedHeader zeroMem sampleCursors
        = (BAD_VALUE, sampleBuffer.clear, sampleCursors, []) ∧
      sampleBuffer.clear.handle = none) ∧
    ((flattenThenUnflatten lp64Build failingImportEnv sampleBuffer
        (GraphicBuffer.new sampleProcess).1 zeroMem zeroMem sampleCursors sampleCursors).1 = -1 ∧
      (flattenThenUnflatten lp64Build failingImportEnv sampleBuffer
        (GraphicBuffer.new sampleProcess).1 zeroMem zeroMem sampleCursors sampleCursors).2.1.handle
          = none ∧
      (flattenThenUnflatten lp64Build failingImportEnv sampleBuffer
        (GraphicBuffer.new sampleProcess).1 zeroMem zeroMem sampleCursors sampleCursors).2.2.2
          = [Event.native_handle_create 1 2, Event.importBuffer (some sampleHandle)]) := by
  decide

/-- Claim C4: import failure when wrapping a handle.  For every handle, geometry and
wrap method in TAKE_UNREGISTERED_HANDLE, CLONE_HANDLE, if the mapper importBuffer is
reached and returns an error e, then initWithHandle returns e, the constructor records
e as mInitCheck, the object ends with a null handle and width, height, stride, format,
layerCount and usage all 0, and for CLONE_HANDLE the clone that was created has been
closed and deleted exactly once. -/
theorem wrap_import_failure (env : Collaborators) (gb : GraphicBuffer) (p : Process)
    (handle : Option native_handle) (method : HandleWrapMethod) (width height : Nat)
    (format : Int) (layerCount usage stride : Nat) (e : status_t) (he : e ≠ NO_ERROR)
    (hm : (method = HandleWrapMethod.TAKE_UNREGISTERED_HANDLE ∧ env.importBuffer handle = e) ∨
      (method = HandleWrapMethod.CLONE_HANDLE ∧ ∃ cl, env.native_handle_clone handle = some cl ∧
        env.importBuffer (some cl) = e)) :
    (gb.initWithHandle env handle method width height format layerCount usage stride).1 = e ∧
    (gb.initWithHandle env handle method width height format layerCount usage stride).2.1 =
      { gb with width := 0, height := 0, stride := 0, format := 0, usage := 0,
                layerCount := 0, handle := none, mOwner := Owner.ownNone } ∧
    (GraphicBuffer.wrap env p handle method width height format layerCount usage stride).1 =
      { (GraphicBuffer.new p).1 with mOwner := Owner.ownNone, mInitCheck := e } ∧
    (method = HandleWrapMethod.TAKE_UNREGISTERED_HANDLE →
      (gb.initWithHandle env handle method width height format layerCount usage stride).2.2
        = [Event.importBuffer handle]) ∧
    (method = HandleWrapMethod.CLONE_HANDLE →
      (gb.initWithHandle env handle method width height format layerCount usage stride).2.2
        = [Event.native_handle_clone handle,
           Event.importBuffer (env.native_handle_clone handle),
           Event.native_handle_close (env.native_handle_clone handle),
           Event.native_handle_delete (env.native_handle_clone handle)] ∧
      (gb.initWithHandle env handle method width height format layerCount usage stride).2.2.count
          (Event.native_handle_close (env.native_handle_clone handle)) = 1 ∧
      (gb.initWithHandle env handle method width height format layerCount usage stride).2.2.count
          (Event.native_handle_delete (env.native_handle_clone handle)) = 1) := by
  have hg := initWithHandle_failed_import env gb handle method width height format layerCount
    usage stride e he hm
  have hn := initWithHandle_failed_import env (GraphicBuffer.new p).1 handle method width height
    format layerCount usage stride e he hm
  refine ⟨hg.1, hg.2.1, ?_, hg.2.2.1, hg.2.2.2⟩
  simp only [GraphicBuffer.wrap, hn.1, hn.2.1]
  rfl

/-- Witness of claim C4: cloning `sampleHandle` while the mapper refuses the import. -/
theorem wrap_import_failure_witness :
    (GraphicBuffer.wrap failingImportEnv sampleProcess (some sampleHandle)
      HandleWrapMethod.CLONE_HANDLE 640 480 1 1 3 640).1 =
      { (GraphicBuffer.new sampleProcess).1 with mOwner := Owner.ownNone, mInitCheck := -1 } :=
  (wrap_import_failure failingImportEnv sampleBuffer sampleProcess (some sampleHandle)
    HandleWrapMethod.CLONE_HANDLE 640 480 1 1 3 640 (-1) (by decide)
    (Or.inr ⟨rfl, sampleHandle, rfl, rfl⟩)).2.2.1

/-- Claim C5: needsReallocation is the stated predicate.  It returns false exactly when
the requested width, height, format and layerCount equal those of the object (width
and height compared as int, the way the object stores them) and the current usage
and-ed with the requested 64-bit usage equals the requested usage; it returns true
otherwise.  It is a function of the object and the request only: it has no effect. -/
theorem needsReallocation_false_iff (gb : GraphicBuffer) (inWidth inHeight : Nat)
    (inFormat : Int) (inLayerCount inUsage : Nat) :
    (gb.needsReallocation inWidth inHeight inFormat inLayerCount inUsage = false ↔
      (toInt32 inWidth = gb.width ∧ toInt32 inHeight = gb.height ∧ inFormat = gb.format ∧
        inLayerCount = gb.layerCount ∧ toUInt32 gb.usage &&& inUsage = inUsage)) ∧
    (gb.needsReallocation inWidth inHeight inFormat inLayerCount inUsage = true ↔
      ¬ (toInt32 inWidth = gb.width ∧ toInt32 inHeight = gb.height ∧ inFormat = gb.format ∧
        inLayerCount = gb.layerCount ∧ toUInt32 gb.usage &&& inUsage = inUsage)) := by
  unfold GraphicBuffer.needsReallocation
  by_cases h1 : toInt32 inWidth = gb.width <;>
  by_cases h2 : toInt32 inHeight = gb.height <;>
  by_cases h3 : inFormat = gb.format <;>
  by_cases h4 : inLayerCount = gb.layerCount <;>
  by_cases h5 : toUInt32 gb.usage &&& inUsage = inUsage <;> simp [h1, h2, h3, h4, h5]

/-- Claim C6, as amended: wire layout written by flatten.  For every object whose id
and generationNumber lie in the ranges of their types, with a well-formed handle (or
none), and every sufficient capacity, flatten succeeds and the 12 header words are, in
order, the magic, width, height, stride, format, the low 32 bits of layerCount, usage,
the high 32 bits of id, the low 32 bits of id, generationNumber, the numFds and the
numInts of the handle (both 0 when the handle is null), the words of the unsigned fields
being read as unsigned 32-bit words; word 5 as stored is layerCount converted to
int32_t; when layerCount is below 2^32 the header is exactly the one the specification
lists; words 12 to 12 + numInts - 1 are the integer payload of the handle in order and
the first numFds entries of the descriptor array are the descriptors of the handle in
order. -/
theorem flatten_wire_layout (abi : Abi) (gb : GraphicBuffer) (mem fdMem : Mem) (c : Cursors)
    (hwf : ∀ h, gb.handle = some h → h.WF abi)
    (hid : gb.mId < 18446744073709551616) (hgen : gb.mGenerationNumber < 4294967296)
    (hsize : (12 + gb.handleNumInts) * 4 ≤ c.size) (hcount : gb.handleNumFds ≤ c.count) :
    (gb.flatten abi mem fdMem c).1 = NO_ERROR ∧
    loadHeader (gb.flatten abi mem fdMem c).2.1 c.buffer
      = gb.wireHeader.set 5 ((gb.layerCount % 4294967296 : Nat) : Int) ∧
    loadWord (gb.flatten abi mem fdMem c).2.1 c.buffer 5 = toInt32 gb.layerCount ∧
    (gb.layerCount < 4294967296 →
      loadHeader (gb.flatten abi mem fdMem c).2.1 c.buffer = gb.wireHeader) ∧
    loadWords (gb.flatten abi mem fdMem c).2.1 (c.buffer + 4 * 12) gb.handleNumInts
      = gb.intPayload ∧
    loadFds (gb.flatten abi mem fdMem c).2.2.1 c.fds gb.handleNumFds = gb.fdPayload := by
  obtain ⟨w0, w1, w2, w3, w4, w5, w6, w7, w8, w9, w10, w11⟩ :=
    flatten_header abi gb mem fdMem c hwf hsize hcount
  obtain ⟨fok, pints, pfds⟩ := flatten_payload abi gb mem fdMem c hwf hsize hcount
  have hq : gb.mId / 4294967296 < 4294967296 := by omega
  have hr : gb.mId % 4294967296 < 4294967296 := by omega
  have hgeneral : loadHeader (gb.flatten abi mem fdMem c).2.1 c.buffer
      = gb.wireHeader.set 5 ((gb.layerCount % 4294967296 : Nat) : Int) := by
    unfold loadHeader
    rw [w0, w1, w2, w3, w4, w5, w6, w7, w8, w9, w10, w11, toUInt32_toInt32,
      generation_restored _ hq, generation_restored _ hr, generation_restored _ hgen]
    rfl
  refine ⟨fok, hgeneral, w5, ?_, pints, pfds⟩
  intro hlc
  rw [hgeneral, Nat.mod_eq_of_lt hlc]
  rfl

/-- Witness of claim C6 as amended: the image of `sampleBuffer`, whose layerCount is 1. -/
theorem flatten_wire_layout_witness :
    loadHeader (sampleBuffer.flatten Abi.lp64 zeroMem zeroMem sampleCursors).2.1
      sampleCursors.buffer = sampleBuffer.wireHeader ∧
    sampleBuffer.wireHeader = [0x47424652, 640, 480, 640, 1, 1, 3, 1234, 0, 0, 1, 2] :=
  ⟨(flatten_wire_layout Abi.lp64 sampleBuffer zeroMem zeroMem sampleCursors
      (fun h hh => by cases hh; decide) (by decide) (by decide) (by decide)
      (by decide)).2.2.2.1 (by decide), by decide⟩

/-- Counterexample to claim C6 as stated: on a 64-bit build `wideLayerBuffer`, whose
layerCount is 2^32, flattens successfully with ample capacity, and word 5 of the header
is 0, which is not its layerCount whether the word is read as signed or as unsigned. -/
theorem flatten_layerCount_word_counterexample :
    wideLayerBuffer.layerCount = 4294967296 ∧
    wideLayerBuffer.layerCount < Abi.lp64.sizeModulus ∧
    wideLayerBuffer.handle = some sampleHandle ∧ sampleHandle.WF Abi.lp64 ∧
    (12 + wideLayerBuffer.handleNumInts) * 4 ≤ sampleCursors.size ∧
    wideLayerBuffer.handleNumFds ≤ sampleCursors.count ∧
    (wideLayerBuffer.flatten Abi.lp64 zeroMem zeroMem sampleCursors).1 = NO_ERROR ∧
    loadWord (wideLayerBuffer.flatten Abi.lp64 zeroMem zeroMem sampleCursors).2.1
      sampleCursors.buffer 5 = 0 ∧
    loadWord (wideLayerBuffer.flatten Abi.lp64 zeroMem zeroMem sampleCursors).2.1
      sampleCursors.buffer 5 ≠ (wideLayerBuffer.layerCount : Int) ∧
    (toUInt32 (loadWord (wideLayerBuffer.flatten Abi.lp64 zeroMem zeroMem sampleCursors).2.1
      sampleCursors.buffer 5) : Int) ≠ (wideLayerBuffer.layerCount : Int) ∧
    loadHeader (wideLayerBuffer.flatten Abi.lp64 zeroMem zeroMem sampleCursors).2.1
      sampleCursors.buffer ≠ wideLayerBuffer.wireHeader := by
  decide

/-- Claim C7: capacity check and cursor accounting of flatten.  For every object with
a well-formed handle (or none), with numInts and numFds taken from its handle (both 0
when the handle is null), getFlattenedSize is (12 + numInts) * 4 and getFdCount is
numFds; flatten returns NO_MEMORY exactly when size < (12 + numInts) * 4 or
count < numFds, and then it writes nothing and leaves the four cursors unchanged;
otherwise it returns NO_ERROR, advances buffer by (12 + numInts) * 4 bytes, lowers size
by the same amount, advances fds by numFds and lowers count by numFds. -/
theorem flatten_capacity_check (abi : Abi) (gb : GraphicBuffer) (mem fdMem : Mem)
    (c : Cursors) (hwf : ∀ h, gb.handle = some h → h.WF abi) :
    gb.getFlattenedSize abi = (12 + gb.handleNumInts) * 4 ∧
    gb.getFdCount abi = gb.handleNumFds ∧
    ((gb.flatten abi mem fdMem c).1 = NO_MEMORY ↔
      (c.size < (12 + gb.handleNumInts) * 4 ∨ c.count < gb.handleNumFds)) ∧
    ((c.size < (12 + gb.handleNumInts) * 4 ∨ c.count < gb.handleNumFds) →
      gb.flatten abi mem fdMem c = (NO_MEMORY, mem, fdMem, c)) ∧
    (¬ (c.size < (12 + gb.handleNumInts) * 4 ∨ c.count < gb.handleNumFds) →
      (gb.flatten abi mem fdMem c).1 = NO_ERROR ∧
      (gb.flatten abi mem fdMem c).2.2.2 =
        { buffer := c.buffer + (12 + gb.handleNumInts) * 4,
          size := c.size - (12 + gb.handleNumInts) * 4,
          fds := c.fds + gb.handleNumFds,
          count := c.count - gb.handleNumFds }) :=
  flatten_result abi gb mem fdMem c hwf

/-- Witness of claim C7: `sampleBuffer` needs 56 bytes and one descriptor. -/
theorem flatten_capacity_check_witness :
    sampleBuffer.getFlattenedSize Abi.lp64 = (12 + sampleBuffer.handleNumInts) * 4 ∧
    sampleBuffer.handleNumInts = 2 ∧
    sampleBuffer.flatten Abi.lp64 zeroMem zeroMem
      { buffer := 1000, size := 55, fds := 0, count := 4 }
      = (NO_MEMORY, zeroMem, zeroMem, { buffer := 1000, size := 55, fds := 0, count := 4 }) :=
  have h := flatten_capacity_check Abi.lp64 sampleBuffer zeroMem zeroMem
    { buffer := 1000, size := 55, fds := 0, count := 4 } (fun h hh => by cases hh; decide)
  ⟨h.1, by decide, h.2.2.2.1 (Or.inl (by decide))⟩

/-- Claim C8: magic mismatch in unflatten.  For every object and every input with at
least 48 bytes available whose word 0 differs from the magic, unflatten returns
BAD_TYPE and leaves the object (geometry, handle, ownership, id, generationNumber) and
the four cursors unchanged, calling no collaborator. -/
theorem unflatten_magic_mismatch (b : Build) (env : Collaborators) (gb : GraphicBuffer)
    (mem fdMem : Mem) (c : Cursors)
    (hsize : 48 ≤ c.size) (hmagic : loadWord mem c.buffer 0 ≠ GBFR) :
    gb.unflatten b env mem fdMem c = (BAD_TYPE, gb, c, []) := by
  unfold GraphicBuffer.unflatten
  have h1 : ¬ c.size < 12 * 4 := by omega
  simp only [h1, if_false, hmagic, ne_eq, not_false_eq_true, if_true]

/-- Witness of claim C8: memory holding zeros has no magic word. -/
theorem unflatten_magic_mismatch_witness :
    sampleBuffer.unflatten lp64Build okEnv zeroMem zeroMem sampleCursors
      = (BAD_TYPE, sampleBuffer, sampleCursors, []) :=
  unflatten_magic_mismatch lp64Build okEnv sampleBuffer zeroMem zeroMem sampleCursors
    (by decide) (by decide)

/-- Claim C9: insufficient capacity in unflatten.  For every object and every input,
unflatten returns NO_MEMORY when fewer than 48 bytes are available, and also when the
magic is correct, numFds < 4096, numInts < 4084 and either size < (12 + numInts) * 4
or count < numFds; in both cases the object (geometry, handle, ownership, id,
generationNumber) and the four cursors are unchanged and no collaborator is called, so
the handle held before is not released. -/
theorem unflatten_insufficient_capacity (b : Build) (env : Collaborators) (gb : GraphicBuffer)
    (mem fdMem : Mem) (c : Cursors)
    (h : c.size < 48 ∨
      (loadWord mem c.buffer 0 = GBFR ∧ wireNumFds b.abi mem c < 4096 ∧
        wireNumInts b.abi mem c < 4084 ∧
        (c.size < (12 + wireNumInts b.abi mem c) * 4 ∨ c.count < wireNumFds b.abi mem c))) :
    gb.unflatten b env mem fdMem c = (NO_MEMORY, gb, c, []) := by
  unfold GraphicBuffer.unflatten
  by_cases h1 : c.size < 12 * 4
  · simp only [h1, if_true]
  · rcases h with h | ⟨hm, hf, hi, hc⟩
    · omega
    · have h2 : ¬ (wireNumFds b.abi mem c ≥ 4096 ∨ wireNumInts b.abi mem c ≥ 4096 - 12) := by
        omega
      have h3 : (12 + wireNumInts b.abi mem c) * 4 % b.abi.sizeModulus
          = (12 + wireNumInts b.abi mem c) * 4 := by
        apply Nat.mod_eq_of_lt
        have := sizeModulus_ge b.abi
        omega
      simp only [h1, if_false, hm, ne_eq, not_true_eq_false, h2, h3]
      rcases hc with hc | hc
      · simp only [hc, if_true]
      · simp only [hc, if_true, ite_self]

/-- Witness of claim C9: 47 bytes are not enough for a header. -/
theorem unflatten_insufficient_capacity_witness :
    sampleBuffer.unflatten lp64Build okEnv zeroMem zeroMem
      { buffer := 1000, size := 47, fds := 0, count := 4 }
      = (NO_MEMORY, sampleBuffer, { buffer := 1000, size := 47, fds := 0, count := 4 }, []) :=
  unflatten_insufficient_capacity lp64Build okEnv sampleBuffer zeroMem zeroMem
    { buffer := 1000, size := 47, fds := 0, count := 4 } (Or.inl (by decide))

/-- Claim C10, as amended: round trip of a null-handle object.  For every well-typed
object whose handle is null, flatten into a buffer of at least 48 bytes succeeds
consuming exactly 12 words and 0 descriptors, and unflatten of those words into a
freshly constructed object succeeds and yields an object with a null handle, the same
id and generationNumber as the original, and width, height, stride, format, layerCount
and usage all 0. -/
theorem roundtrip_null_handle (b : Build) (env : Collaborators) (gb : GraphicBuffer)
    (p : Process) (mem fdMem : Mem) (c cu : Cursors)
    (hwf : gb.WF b.abi) (hh : gb.handle = none)
    (hsize : 48 ≤ c.size) (hcb : cu.buffer = c.buffer) (husize : 48 ≤ cu.size) :
    (gb.flatten b.abi mem fdMem c).1 = NO_ERROR ∧
    (gb.flatten b.abi mem fdMem c).2.2.2 =
      { buffer := c.buffer + 48, size := c.size - 48, fds := c.fds, count := c.count } ∧
    flattenThenUnflatten b env gb (GraphicBuffer.new p).1 mem fdMem c cu =
      (NO_ERROR,
       { width := 0, height := 0, stride := 0, format := 0, layerCount := 0, usage := 0,
         handle := none, mOwner := Owner.ownHandle, mInitCheck := NO_ERROR,
         mId := gb.mId, mGenerationNumber := gb.mGenerationNumber },
       { buffer := cu.buffer + 48, size := cu.size - 48, fds := cu.fds, count := cu.count },
       []) := by
  obtain ⟨-, -, -, -, -, -, wid, wgen, whd⟩ := hwf
  have hwfh : ∀ x, gb.handle = some x → x.WF b.abi := whd
  have eNF : gb.handleNumFds = 0 := by
    simp only [GraphicBuffer.handleNumFds, hh]
  have eNI : gb.handleNumInts = 0 := by
    simp only [GraphicBuffer.handleNumInts, hh]
  have hsize' : (12 + gb.handleNumInts) * 4 ≤ c.size := by rw [eNI]; exact hsize
  have hcount' : gb.handleNumFds ≤ c.count := by rw [eNF]; exact Nat.zero_le _
  have hcap := (flatten_result b.abi gb mem fdMem c hwfh).2.2.2.2
    (by rw [eNI, eNF]; omega)
  have s0 : toSizeT b.abi ((0 : Nat) : Int) = 0 := toSizeT_natCast b.abi 0 (by decide)
  obtain ⟨w0, -, -, -, -, -, -, w7, w8, w9, w10, w11⟩ :=
    flatten_header b.abi gb mem fdMem c hwfh hsize' hcount'
  refine ⟨hcap.1, ?_, ?_⟩
  · rw [hcap.2, eNF, eNI]
    rfl
  · unfold flattenThenUnflatten
    rw [← hcb] at w0 w7 w8 w9 w10 w11
    generalize (gb.flatten b.abi mem fdMem c).2.1 = fm at *
    generalize (gb.flatten b.abi mem fdMem c).2.2.1 = ff at *
    have hNF : wireNumFds b.abi fm cu = 0 := by
      unfold wireNumFds
      rw [w10, eNF, s0]
    have hNI : wireNumInts b.abi fm cu = 0 := by
      unfold wireNumInts
      rw [w11, eNI, s0]
    rw [unflatten_success_null b env (GraphicBuffer.new p).1 fm ff cu husize w0 hNF hNI
      (new_handle p), w7, w8, w9, generation_restored _ wgen, id_restored _ wid]
    rfl

/-- Witness of claim C10 as amended: the round trip of `nullHandleBuffer`. -/
theorem roundtrip_null_handle_witness :
    flattenThenUnflatten lp64Build okEnv nullHandleBuffer (GraphicBuffer.new sampleProcess).1
        zeroMem zeroMem sampleCursors sampleCursors =
      (NO_ERROR,
       { width := 0, height := 0, stride := 0, format := 0, layerCount := 0, usage := 0,
         handle := none, mOwner := Owner.ownHandle, mInitCheck := NO_ERROR,
         mId := nullHandleBuffer.mId, mGenerationNumber := nullHandleBuffer.mGenerationNumber },
       { buffer := sampleCursors.buffer + 48, size := sampleCursors.size - 48,
         fds := sampleCursors.fds, count := sampleCursors.count },
       []) :=
  (roundtrip_null_handle lp64Build okEnv nullHandleBuffer sampleProcess zeroMem zeroMem
    sampleCursors sampleCursors
    ⟨by decide, by decide, by decide, by decide, by decide, by decide, by decide, by decide,
      fun h hh => by cases hh⟩
    rfl (by decide) rfl (by decide)).2.2

/-- Counterexample to claim C10 as stated: a buffer adopted from a platform descriptor
with a null handle and width 640 flattens and unflattens successfully, but the object
read back has width 0, not 640. -/
theorem null_handle_geometry_counterexample :
    nullHandleBuffer.handle = none ∧
    nullHandleBuffer.width = 640 ∧
    (nullHandleBuffer.flatten Abi.lp64 zeroMem zeroMem sampleCursors).1 = NO_ERROR ∧
    (flattenThenUnflatten lp64Build okEnv nullHandleBuffer (GraphicBuffer.new sampleProcess).1
      zeroMem zeroMem sampleCursors sampleCursors).1 = NO_ERROR ∧
    (flattenThenUnflatten lp64Build okEnv nullHandleBuffer (GraphicBuffer.new sampleProcess).1
      zeroMem zeroMem sampleCursors sampleCursors).2.1.width = 0 ∧
    (flattenThenUnflatten lp64Build okEnv nullHandleBuffer (GraphicBuffer.new sampleProcess).1
      zeroMem zeroMem sampleCursors sampleCursors).2.1.width ≠ nullHandleBuffer.width := by
  decide

/-! ## Lemmas on reallocate, identifiers and the invariant -/

theorem toSizeT_negative (abi : Abi) (x : Int) (hx : isInt32 x) (hn : x < 0) :
    4096 ≤ toSizeT abi x := by
  unfold isInt32 at hx
  cases abi <;> simp only [toSizeT, Abi.sizeModulus] <;> omega

theorem reallocate_not_owner (al : Allocator) (gb : GraphicBuffer) (inWidth inHeight : Nat)
    (inFormat : Int) (inLayerCount inUsage : Nat)
    (ho : gb.mOwner ≠ Owner.ownData) :
    gb.reallocate al inWidth inHeight inFormat inLayerCount inUsage
      = (INVALID_OPERATION, gb, []) := by
  unfold GraphicBuffer.reallocate
  simp only [ho, ne_eq, not_false_eq_true, if_true]

theorem reallocate_matching (al : Allocator) (gb : GraphicBuffer)
    (inWidth inHeight : Nat) (inFormat : Int) (inLayerCount inUsage : Nat)
    (ho : gb.mOwner = Owner.ownData)
    (hm : gb.handle.isSome ∧ toInt32 inWidth = gb.width ∧ toInt32 inHeight = gb.height ∧
      inFormat = gb.format ∧ inLayerCount = gb.layerCount ∧ toInt32 inUsage = gb.usage) :
    gb.reallocate al inWidth inHeight inFormat inLayerCount inUsage = (NO_ERROR, gb, []) := by
  unfold GraphicBuffer.reallocate
  rw [if_neg (by rw [ho]; exact fun h => h rfl), if_pos hm]

theorem reallocate_alloc_failure (al : Allocator) (gb : GraphicBuffer)
    (inWidth inHeight : Nat) (inFormat : Int) (inLayerCount inUsage : Nat)
    (ho : gb.mOwner = Owner.ownData)
    (hne : ¬ (gb.handle.isSome ∧ toInt32 inWidth = gb.width ∧ toInt32 inHeight = gb.height ∧
      inFormat = gb.format ∧ inLayerCount = gb.layerCount ∧ toInt32 inUsage = gb.usage))
    (he : (al.alloc inWidth inHeight inFormat (inUsage % 4294967296) none).err ≠ NO_ERROR) :
    gb.reallocate al inWidth inHeight inFormat inLayerCount inUsage =
      ((al.alloc inWidth inHeight inFormat (inUsage % 4294967296) none).err,
       { gb with handle :=
           (al.alloc inWidth inHeight inFormat (inUsage % 4294967296) none).handle },
       (if gb.handle.isSome then [Event.allocatorFree gb.handle] else []) ++
         [Event.allocatorAlloc inWidth inHeight inFormat (inUsage % 4294967296)]) := by
  unfold GraphicBuffer.reallocate
  rw [if_neg (by rw [ho]; exact fun h => h rfl), if_neg hne]
  unfold GraphicBuffer.initWithSize
  cases hh : gb.handle with
  | none =>
    simp only [Option.isSome_none, Bool.false_eq_true, if_false, hh, he, List.nil_append]
  | some h =>
    simp only [Option.isSome_some, if_true, he, if_false, List.singleton_append]

theorem reallocate_alloc_success (al : Allocator) (gb : GraphicBuffer)
    (inWidth inHeight : Nat) (inFormat : Int) (inLayerCount inUsage : Nat)
    (ho : gb.mOwner = Owner.ownData)
    (hne : ¬ (gb.handle.isSome ∧ toInt32 inWidth = gb.width ∧ toInt32 inHeight = gb.height ∧
      inFormat = gb.format ∧ inLayerCount = gb.layerCount ∧ toInt32 inUsage = gb.usage))
    (he : (al.alloc inWidth inHeight inFormat (inUsage % 4294967296) none).err = NO_ERROR) :
    gb.reallocate al inWidth inHeight inFormat inLayerCount inUsage =
      (NO_ERROR,
       { gb with handle :=
                   (al.alloc inWidth inHeight inFormat (inUsage % 4294967296) none).handle,
                 width := toInt32 inWidth, height := toInt32 inHeight, format := inFormat,
                 layerCount := inLayerCount,
                 usage := toInt32 ((inUsage % 4294967296 : Nat) : Int),
                 stride := toInt32
                   (al.alloc inWidth inHeight inFormat (inUsage % 4294967296) none).stride },
       (if gb.handle.isSome then [Event.allocatorFree gb.handle] else []) ++
         [Event.allocatorAlloc inWidth inHeight inFormat (inUsage % 4294967296)]) := by
  unfold GraphicBuffer.reallocate
  rw [if_neg (by rw [ho]; exact fun h => h rfl), if_neg hne]
  unfold GraphicBuffer.initWithSize
  cases hh : gb.handle with
  | none =>
    simp only [Option.isSome_none, Bool.false_eq_true, if_false, hh, he, if_true,
      List.nil_append]
  | some h =>
    simp only [Option.isSome_some, if_true, he, List.singleton_append]

theorem toUInt32_step (x y : Int) (n : Nat) (h : toUInt32 y = toUInt32 (x + n)) :
    toUInt32 (toInt32 (y + 1)) = toUInt32 (x + (n + 1 : Nat)) := by
  simp only [toUInt32, toInt32] at h ⊢
  omega

theorem toUInt32_lt (x : Int) : toUInt32 x < 4294967296 := by
  simp only [toUInt32]
  omega

theorem toUInt32_distinct (x : Int) (i j : Nat) (hij : i < j) (hd : j - i < 4294967296) :
    toUInt32 (x + i) ≠ toUInt32 (x + j) := by
  simp only [toUInt32]
  omega

theorem toUInt64_pid (x : Int) (h0 : 0 ≤ x) (h1 : x < 2147483648) :
    (toUInt64 x <<< 32) % 18446744073709551616 = 2 ^ 32 * x.toNat := by
  rw [Nat.shiftLeft_eq]
  simp only [toUInt64]
  norm_num
  omega

theorem afterConstructions_pid (p : Process) (n : Nat) :
    (p.afterConstructions n).pid = p.pid := by
  induction n with
  | zero => rfl
  | succ k ih =>
    show (getUniqueId (p.afterConstructions k)).2.pid = p.pid
    exact ih

theorem afterConstructions_nextId (p : Process) (n : Nat) :
    toUInt32 (p.afterConstructions n).nextId = toUInt32 (p.nextId + n) := by
  induction n with
  | zero =>
    show toUInt32 p.nextId = toUInt32 (p.nextId + ((0 : Nat) : Int))
    rw [Nat.cast_zero, Int.add_zero]
  | succ k ih =>
    show toUInt32 (toInt32 ((p.afterConstructions k).nextId + 1)) = _
    exact toUInt32_step _ _ _ ih

theorem getUniqueId_eq (q : Process) (h0 : 0 ≤ q.pid) (h1 : q.pid < 2147483648) :
    (getUniqueId q).1 = 2 ^ 32 * q.pid.toNat + toUInt32 q.nextId := by
  show ((toUInt64 q.pid <<< 32) % 18446744073709551616) ||| toUInt32 q.nextId = _
  rw [toUInt64_pid q.pid h0 h1]
  exact (Nat.mul_add_lt_is_or (toUInt32_lt q.nextId) q.pid.toNat).symm

theorem constructedId_eq (p : Process) (n : Nat) (h0 : 0 ≤ p.pid) (h1 : p.pid < 2147483648) :
    constructedId p n = 2 ^ 32 * p.pid.toNat + toUInt32 (p.nextId + n) := by
  unfold constructedId
  rw [getUniqueId_eq _ (by rw [afterConstructions_pid]; exact h0)
    (by rw [afterConstructions_pid]; exact h1), afterConstructions_pid,
    afterConstructions_nextId]

theorem initWithSize_mId (al : Allocator) (gb : GraphicBuffer) (inWidth inHeight : Nat)
    (inFormat : Int) (inLayerCount inUsage : Nat) :
    (gb.initWithSize al inWidth inHeight inFormat inLayerCount inUsage).2.1.mId = gb.mId := by
  cases gb
  unfold GraphicBuffer.initWithSize
  dsimp only
  split_ifs <;> rfl

theorem initWithHandle_mId (env : Collaborators) (gb : GraphicBuffer)
    (handle : Option native_handle) (method : HandleWrapMethod) (width height : Nat)
    (format : Int) (layerCount usage stride : Nat) :
    (gb.initWithHandle env handle method width height format layerCount usage stride).2.1.mId
      = gb.mId := by
  cases gb
  rw [GraphicBuffer.initWithHandle]
  simp only [initWithHandle_wrap]
  split_ifs <;> rfl

theorem inv_initWithSize (al : Allocator) (gb : GraphicBuffer) (inWidth inHeight : Nat)
    (inFormat : Int) (inLayerCount inUsage : Nat) (hs : al.Sound)
    (hi : gb.nullHandleZeroGeometry) (hn : gb.handle = none) :
    (gb.initWithSize al inWidth inHeight inFormat inLayerCount inUsage).2.1.nullHandleZeroGeometry := by
  obtain ⟨w, h, s, f, lc, u, hd, ow, ic, id, gen⟩ := gb
  have hs' := hs inWidth inHeight inFormat inUsage hd
  unfold GraphicBuffer.nullHandleZeroGeometry at hi ⊢
  unfold GraphicBuffer.initWithSize
  dsimp only at hi hn ⊢
  split_ifs with he
  · intro hh
    exact absurd hh (hs' he)
  · intro _
    exact hi hn

theorem inv_setInitCheck (gb : GraphicBuffer) (e : status_t)
    (hi : gb.nullHandleZeroGeometry) :
    ({ gb with mInitCheck := e } : GraphicBuffer).nullHandleZeroGeometry := by
  obtain ⟨w, h, s, f, lc, u, hd, ow, ic, id, gen⟩ := gb
  exact hi

theorem inv_new (p : Process) : (GraphicBuffer.new p).1.nullHandleZeroGeometry := by
  intro _
  exact ⟨rfl, rfl, rfl, rfl, rfl, rfl⟩

theorem inv_ofSize (al : Allocator) (p : Process) (inWidth inHeight : Nat) (inFormat : Int)
    (inLayerCount usage : Nat) (hs : al.Sound) :
    (GraphicBuffer.ofSize al p inWidth inHeight inFormat inLayerCount usage).1.nullHandleZeroGeometry := by
  have h := inv_initWithSize al (GraphicBuffer.new p).1 inWidth inHeight inFormat inLayerCount
    (usage % 4294967296) hs (inv_new p) rfl
  exact inv_setInitCheck _ _ h

theorem inv_ofNativeBuffer (p : Process) (buffer : ANativeWindowBuffer) (keep : Bool)
    (hh : buffer.handle ≠ none) :
    (GraphicBuffer.ofNativeBuffer p buffer keep).1.nullHandleZeroGeometry := by
  intro hn
  exact absurd hn hh

theorem inv_initWithHandle (env : Collaborators) (gb : GraphicBuffer)
    (handle : Option native_handle) (method : HandleWrapMethod) (width height : Nat)
    (format : Int) (layerCount usage stride : Nat)
    (hi : gb.nullHandleZeroGeometry) (hh : handle ≠ none) :
    (gb.initWithHandle env handle method width height format layerCount usage
      stride).2.1.nullHandleZeroGeometry := by
  obtain ⟨w, h, s, f, lc, u, hd, ow, ic, id, gen⟩ := gb
  unfold GraphicBuffer.nullHandleZeroGeometry at hi ⊢
  dsimp only at hi
  cases method
  · rw [initWithHandle_wrap]
    intro hn
    exact absurd hn hh
  · rw [GraphicBuffer.initWithHandle]
    simp [hh]
  · rw [GraphicBuffer.initWithHandle]
    by_cases he : env.importBuffer handle = NO_ERROR
    · simp [he, hh]
    · simp [he, initWithHandle_wrap, toInt32_zero]
  · rw [GraphicBuffer.initWithHandle]
    cases hc : env.native_handle_clone handle with
    | none =>
      simp only [hc, and_self, if_true]
      exact hi
    | some cl =>
      by_cases he : env.importBuffer (some cl) = NO_ERROR
      · simp [he, hc]
      · simp [he, hc, initWithHandle_wrap, toInt32_zero]

theorem inv_wrap (env : Collaborators) (p : Process) (handle : Option native_handle)
    (method : HandleWrapMethod) (width height : Nat) (format : Int)
    (layerCount usage stride : Nat) (hh : handle ≠ none) :
    (GraphicBuffer.wrap env p handle method width height format layerCount usage
      stride).1.nullHandleZeroGeometry := by
  have h := inv_initWithHandle env (GraphicBuffer.new p).1 handle method width height format
    layerCount usage stride (inv_new p) hh
  exact inv_setInitCheck _ _ h

theorem inv_reallocate (al : Allocator) (gb : GraphicBuffer) (inWidth inHeight : Nat)
    (inFormat : Int) (inLayerCount inUsage : Nat) (hs : al.Sound)
    (hok : (al.alloc inWidth inHeight inFormat (inUsage % 4294967296) none).err = NO_ERROR ∨
      gb.handle = none)
    (hi : gb.nullHandleZeroGeometry) :
    (gb.reallocate al inWidth inHeight inFormat inLayerCount
      inUsage).2.1.nullHandleZeroGeometry := by
  by_cases ho : gb.mOwner = Owner.ownData
  · by_cases hm : gb.handle.isSome ∧ toInt32 inWidth = gb.width ∧
        toInt32 inHeight = gb.height ∧ inFormat = gb.format ∧ inLayerCount = gb.layerCount ∧
        toInt32 inUsage = gb.usage
    · rw [reallocate_matching al gb inWidth inHeight inFormat inLayerCount inUsage ho hm]
      exact hi
    · by_cases he : (al.alloc inWidth inHeight inFormat (inUsage % 4294967296) none).err
          = NO_ERROR
      · rw [reallocate_alloc_success al gb inWidth inHeight inFormat inLayerCount inUsage ho
          hm he]
        have hsome := hs inWidth inHeight inFormat (inUsage % 4294967296) none he
        obtain ⟨w, h, s, f, lc, u, hd, ow, ic, id, gen⟩ := gb
        intro hn
        exact absurd hn hsome
      · rw [reallocate_alloc_failure al gb inWidth inHeight inFormat inLayerCount inUsage ho
          hm he]
        have hnone : gb.handle = none := by
          rcases hok with h | h
          · exact absurd h he
          · exact h
        have hz := hi hnone
        obtain ⟨w, h, s, f, lc, u, hd, ow, ic, id, gen⟩ := gb
        intro _
        exact hz
  · rw [reallocate_not_owner al gb inWidth inHeight inFormat inLayerCount inUsage ho]
    exact hi

theorem inv_clear (gb : GraphicBuffer) : gb.clear.nullHandleZeroGeometry := by
  intro _
  exact ⟨rfl, rfl, rfl, rfl, rfl, rfl⟩

theorem inv_unflatten (b : Build) (env : Collaborators) (gb : GraphicBuffer)
    (mem fdMem : Mem) (c : Cursors) (hi : gb.nullHandleZeroGeometry) :
    (gb.unflatten b env mem fdMem c).2.1.nullHandleZeroGeometry := by
  obtain ⟨w, h, s, f, lc, u, hd, ow, ic, id, gen⟩ := gb
  unfold GraphicBuffer.unflatten
  dsimp only
  by_cases h1 : c.size < 12 * 4
  · rw [if_pos h1]
    exact hi
  rw [if_neg h1]
  by_cases h2 : loadWord mem c.buffer 0 ≠ GBFR
  · rw [if_pos h2]
    exact hi
  rw [if_neg h2]
  by_cases h3 : wireNumFds b.abi mem c ≥ 4096 ∨ wireNumInts b.abi mem c ≥ 4096 - 12
  · rw [if_pos h3]
    exact inv_clear _
  rw [if_neg h3]
  by_cases h4 : c.size < (12 + wireNumInts b.abi mem c) * 4 % b.abi.sizeModulus
  · rw [if_pos h4]
    exact hi
  rw [if_neg h4]
  by_cases h5 : c.count < wireNumFds b.abi mem c
  · rw [if_pos h5]
    exact hi
  rw [if_neg h5]
  by_cases h6 : wireNumFds b.abi mem c ≠ 0 ∨ wireNumInts b.abi mem c ≠ 0
  · rw [if_pos h6]
    by_cases h7 : env.native_handle_create (toInt32 (wireNumFds b.abi mem c))
        (toInt32 (wireNumInts b.abi mem c)) = false
    · rw [if_pos h7]
      exact inv_clear _
    rw [if_neg h7]
    split_ifs
    all_goals first
      | exact inv_clear _
      | (intro hn; exact absurd hn (Option.some_ne_none _))
  · rw [if_neg h6]
    intro _
    exact ⟨rfl, rfl, rfl, rfl, rfl, rfl⟩

/-! ## The claims, continued -/

/-- Claim C11: reallocate is refused on buffers that do not own their data.  For every
object whose ownership mode is ownHandle or ownNone and every request, reallocate
returns INVALID_OPERATION, leaves the object unchanged and calls neither the free nor
the alloc of the allocator. -/
theorem reallocate_refused (al : Allocator) (gb : GraphicBuffer) (inWidth inHeight : Nat)
    (inFormat : Int) (inLayerCount inUsage : Nat)
    (ho : gb.mOwner = Owner.ownHandle ∨ gb.mOwner = Owner.ownNone) :
    gb.reallocate al inWidth inHeight inFormat inLayerCount inUsage
      = (INVALID_OPERATION, gb, []) := by
  apply reallocate_not_owner
  rcases ho with ho | ho <;> rw [ho] <;> decide

/-- Witness of claim C11: `sampleBuffer` has ownership mode ownHandle. -/
theorem reallocate_refused_witness :
    sampleBuffer.reallocate okAllocator 1 1 1 1 0 = (INVALID_OPERATION, sampleBuffer, []) :=
  reallocate_refused okAllocator sampleBuffer 1 1 1 1 0 (Or.inl rfl)

/-- Claim C12: reallocate with matching parameters is a no-op.  For every ownData object
with a non-null handle, reallocate called with width, height, format, layerCount and
usage equal to the current values of the object (width, height and usage compared as
int, the way the object stores them) returns NO_ERROR, leaves every field and the
handle unchanged, and calls neither the free nor the alloc of the allocator. -/
theorem reallocate_same_parameters (al : Allocator) (gb : GraphicBuffer) (h : native_handle)
    (inWidth inHeight : Nat) (inFormat : Int) (inLayerCount inUsage : Nat)
    (ho : gb.mOwner = Owner.ownData) (hh : gb.handle = some h)
    (hw : toInt32 inWidth = gb.width) (hht : toInt32 inHeight = gb.height)
    (hf : inFormat = gb.format) (hl : inLayerCount = gb.layerCount)
    (hu : toInt32 inUsage = gb.usage) :
    gb.reallocate al inWidth inHeight inFormat inLayerCount inUsage = (NO_ERROR, gb, []) :=
  reallocate_matching al gb inWidth inHeight inFormat inLayerCount inUsage ho
    ⟨by rw [hh]; rfl, hw, hht, hf, hl, hu⟩

/-- Witness of claim C12: `ownedBuffer` asked for its own 640x480, format 1, one layer,
usage 3. -/
theorem reallocate_same_parameters_witness :
    ownedBuffer.reallocate failingAllocator 640 480 1 1 3 = (NO_ERROR, ownedBuffer, []) :=
  reallocate_same_parameters failingAllocator ownedBuffer sampleHandle 640 480 1 1 3
    rfl rfl (by decide) (by decide) rfl rfl (by decide)

/-- Claim C13: failed reallocation leaves no stale handle.  For every ownData object and
every request on which reallocate reaches alloc, if alloc fails with status e and
produces no handle, then the old handle, if there was one, has been freed through the
allocator exactly once and before the alloc call, reallocate returns e, and the handle
of the object is null afterwards. -/
theorem reallocate_failure_frees_first (al : Allocator) (gb : GraphicBuffer)
    (inWidth inHeight : Nat) (inFormat : Int) (inLayerCount inUsage : Nat) (e : status_t)
    (ho : gb.mOwner = Owner.ownData)
    (hne : ¬ (gb.handle.isSome ∧ toInt32 inWidth = gb.width ∧ toInt32 inHeight = gb.height ∧
      inFormat = gb.format ∧ inLayerCount = gb.layerCount ∧ toInt32 inUsage = gb.usage))
    (he : (al.alloc inWidth inHeight inFormat (inUsage % 4294967296) none).err = e)
    (hfail : e ≠ NO_ERROR)
    (hnone : (al.alloc inWidth inHeight inFormat (inUsage % 4294967296) none).handle = none) :
    (gb.reallocate al inWidth inHeight inFormat inLayerCount inUsage).1 = e ∧
    (gb.reallocate al inWidth inHeight inFormat inLayerCount inUsage).2.1.handle = none ∧
    (gb.handle = none →
      (gb.reallocate al inWidth inHeight inFormat inLayerCount inUsage).2.2 =
        [Event.allocatorAlloc inWidth inHeight inFormat (inUsage % 4294967296)]) ∧
    (∀ h, gb.handle = some h →
      (gb.reallocate al inWidth inHeight inFormat inLayerCount inUsage).2.2 =
        [Event.allocatorFree (some h),
         Event.allocatorAlloc inWidth inHeight inFormat (inUsage % 4294967296)] ∧
      (gb.reallocate al inWidth inHeight inFormat inLayerCount inUsage).2.2.count
        (Event.allocatorFree (some h)) = 1) := by
  rw [reallocate_alloc_failure al gb inWidth inHeight inFormat inLayerCount inUsage ho hne
    (by rw [he]; exact hfail)]
  refine ⟨he, hnone, ?_, ?_⟩
  · intro hh
    simp [hh]
  · intro h hh
    simp [hh]

/-- Witness of claim C13: `ownedBuffer` asked for 1x1 while the allocator fails. -/
theorem reallocate_failure_frees_first_witness :
    (ownedBuffer.reallocate failingAllocator 1 1 1 1 3).1 = NO_MEMORY ∧
    (ownedBuffer.reallocate failingAllocator 1 1 1 1 3).2.1.handle = none ∧
    (ownedBuffer.reallocate failingAllocator 1 1 1 1 3).2.2 =
      [Event.allocatorFree (some sampleHandle), Event.allocatorAlloc 1 1 1 (3 % 4294967296)] :=
  have h := reallocate_failure_frees_first failingAllocator ownedBuffer 1 1 1 1 3 NO_MEMORY
    rfl (by decide) rfl (by decide) rfl
  ⟨h.1, h.2.1, (h.2.2.2 sampleHandle rfl).1⟩

/-- Claim C14: rectangle bounds check of lock.  For each of lock, lockYCbCr, lockAsync
and lockAsyncYCbCr with an explicit rectangle, for every buffer and every rectangle, the
call returns BAD_VALUE without calling the mapper if and only if rect.left < 0 or
rect.top < 0 or rect.right > width or rect.bottom > height; otherwise it calls the
corresponding mapper operation exactly once with the handle of the buffer, the given
usage and rectangle (and fence) and returns the status of the mapper unchanged. -/
theorem lock_bounds_check (mp : Mapper) (gb : GraphicBuffer) (inUsage : Nat) (rect : Rect)
    (fenceFd : Int) :
    (((gb.lock mp inUsage rect).1 = BAD_VALUE ∧ (gb.lock mp inUsage rect).2 = []) ↔
      (rect.left < 0 ∨ rect.top < 0 ∨ rect.right > gb.width ∨ rect.bottom > gb.height)) ∧
    (((gb.lockYCbCr mp inUsage rect).1 = BAD_VALUE ∧ (gb.lockYCbCr mp inUsage rect).2 = []) ↔
      (rect.left < 0 ∨ rect.top < 0 ∨ rect.right > gb.width ∨ rect.bottom > gb.height)) ∧
    (((gb.lockAsync mp inUsage rect fenceFd).1 = BAD_VALUE ∧
        (gb.lockAsync mp inUsage rect fenceFd).2 = []) ↔
      (rect.left < 0 ∨ rect.top < 0 ∨ rect.right > gb.width ∨ rect.bottom > gb.height)) ∧
    (((gb.lockAsyncYCbCr mp inUsage rect fenceFd).1 = BAD_VALUE ∧
        (gb.lockAsyncYCbCr mp inUsage rect fenceFd).2 = []) ↔
      (rect.left < 0 ∨ rect.top < 0 ∨ rect.right > gb.width ∨ rect.bottom > gb.height)) ∧
    (¬ (rect.left < 0 ∨ rect.top < 0 ∨ rect.right > gb.width ∨ rect.bottom > gb.height) →
      gb.lock mp inUsage rect
        = (mp.lock gb.handle inUsage rect, [Event.lock gb.handle inUsage rect]) ∧
      gb.lockYCbCr mp inUsage rect
        = (mp.lockYCbCr gb.handle inUsage rect, [Event.lockYCbCr gb.handle inUsage rect]) ∧
      gb.lockAsync mp inUsage rect fenceFd
        = (mp.lockAsync gb.handle inUsage rect fenceFd,
           [Event.lockAsync gb.handle inUsage rect fenceFd]) ∧
      gb.lockAsyncYCbCr mp inUsage rect fenceFd
        = (mp.lockAsyncYCbCr gb.handle inUsage rect fenceFd,
           [Event.lockAsyncYCbCr gb.handle inUsage rect fenceFd])) := by
  unfold GraphicBuffer.lock GraphicBuffer.lockYCbCr GraphicBuffer.lockAsync
    GraphicBuffer.lockAsyncYCbCr
  by_cases hb : rect.left < 0 ∨ rect.right > gb.width ∨ rect.top < 0 ∨ rect.bottom > gb.height
  · have hb2 : rect.left < 0 ∨ rect.top < 0 ∨ rect.right > gb.width ∨ rect.bottom > gb.height := by
      omega
    simp only [hb, hb2, if_true, and_self, true_iff, not_true_eq_false, false_implies,
      and_true]
  · have hb2 : ¬ (rect.left < 0 ∨ rect.top < 0 ∨ rect.right > gb.width ∨
        rect.bottom > gb.height) := by
      omega
    simp only [hb, hb2, if_false, iff_false, not_and, not_false_eq_true, true_implies,
      and_self, and_true]
    simp

/-- Claim C19: negative counts are rejected by unflatten.  For every object and every
input with at least 48 bytes available and the correct magic in which word 10 or word
11, a signed 32-bit integer, is negative, unflatten returns BAD_VALUE and calls neither
native_handle_create nor the mapper (it calls no collaborator); the outcome is the same
for every memory that agrees on the 12 header words and for every descriptor array, so
no word beyond the header and no entry of the fd array is read. -/
theorem unflatten_negative_counts (b : Build) (env : Collaborators) (gb : GraphicBuffer)
    (mem fdMem : Mem) (c : Cursors)
    (hsize : 48 ≤ c.size) (hmagic : loadWord mem c.buffer 0 = GBFR)
    (hneg : (isInt32 (loadWord mem c.buffer 10) ∧ loadWord mem c.buffer 10 < 0) ∨
      (isInt32 (loadWord mem c.buffer 11) ∧ loadWord mem c.buffer 11 < 0)) :
    gb.unflatten b env mem fdMem c = (BAD_VALUE, gb.clear, c, []) ∧
    ∀ (mem2 fdMem2 : Mem), (∀ i, i < 12 → loadWord mem2 c.buffer i = loadWord mem c.buffer i) →
      gb.unflatten b env mem2 fdMem2 c = gb.unflatten b env mem fdMem c := by
  have key : ∀ (m f : Mem), (∀ i, i < 12 → loadWord m c.buffer i = loadWord mem c.buffer i) →
      gb.unflatten b env m f c = (BAD_VALUE, gb.clear, c, []) := by
    intro m f hag
    apply unflatten_ceiling b env gb m f c hsize
    · rw [hag 0 (by decide)]
      exact hmagic
    · unfold wireNumFds wireNumInts
      rw [hag 10 (by decide), hag 11 (by decide)]
      rcases hneg with ⟨h1, h2⟩ | ⟨h1, h2⟩
      · exact Or.inl (toSizeT_negative b.abi _ h1 h2)
      · exact Or.inr (Nat.le_trans (by decide) (toSizeT_negative b.abi _ h1 h2))
  refine ⟨key mem fdMem (fun _ _ => rfl), ?_⟩
  intro mem2 fdMem2 hag
  rw [key mem2 fdMem2 hag, key mem fdMem (fun _ _ => rfl)]

/-- Witness of claim C19: a header whose word 10 is -1. -/
theorem unflatten_negative_counts_witness :
    sampleBuffer.unflatten lp64Build okEnv negativeCountHeader zeroMem sampleCursors
      = (BAD_VALUE, sampleBuffer.clear, sampleCursors, []) :=
  (unflatten_negative_counts lp64Build okEnv sampleBuffer negativeCountHeader zeroMem
    sampleCursors (by decide) (by decide) (Or.inl ⟨by decide, by decide⟩)).1

/-- Witness of claim C14: width 100 and a rectangle whose right edge is 101. -/
theorem lock_bounds_check_witness :
    ({ sampleBuffer with width := 100 } : GraphicBuffer).lock okMapper 3
        { left := 0, top := 0, right := 101, bottom := 10 } = (BAD_VALUE, []) :=
  have h := ((lock_bounds_check okMapper { sampleBuffer with width := 100 } 3
    { left := 0, top := 0, right := 101, bottom := 10 } 0).1).mpr (by decide)
  Prod.ext h.1 h.2

/-- Claim C15, as amended: release is dispatched on the ownership mode.  For every
object, destruction with a null handle calls no collaborator; with a non-null handle
and ownHandle it calls unregisterBuffer of the mapper, then native_handle_close, then
native_handle_delete on that handle, each exactly once and in that order; with ownData
it calls free of the allocator on that handle exactly once and nothing else; with
ownNone it calls nothing; after the release step the handle of the object is null in
builds that do not define EGL_NEEDS_HANDLE, and is left as it was in builds that do. -/
theorem destroy_dispatch (b : Build) (gb : GraphicBuffer) :
    (gb.handle = none → gb.destroy b = (gb, [])) ∧
    (∀ h, gb.handle = some h →
      (gb.mOwner = Owner.ownHandle →
        (gb.destroy b).2 = [Event.unregisterBuffer (some h), Event.native_handle_close (some h),
          Event.native_handle_delete (some h)]) ∧
      (gb.mOwner = Owner.ownData → (gb.destroy b).2 = [Event.allocatorFree (some h)]) ∧
      (gb.mOwner = Owner.ownNone → (gb.destroy b).2 = [])) ∧
    (b.EGL_NEEDS_HANDLE = false → (gb.destroy b).1 = { gb with handle := none }) ∧
    (b.EGL_NEEDS_HANDLE = true → (gb.destroy b).1 = gb) := by
  unfold GraphicBuffer.destroy GraphicBuffer.free_handle
  refine ⟨?_, ?_, ?_, ?_⟩
  · intro hh
    simp [hh]
  · intro h hh
    refine ⟨?_, ?_, ?_⟩ <;> intro ho <;> simp [hh, ho]
  · intro hb
    cases hh : gb.handle with
    | none =>
      cases gb
      simp_all
    | some h => simp [hb]
  · intro hb
    cases hh : gb.handle <;> simp [hb]

/-- Witness of claim C15 as amended: destroying `sampleBuffer`, which owns its handle in
mode ownHandle, in a build without EGL_NEEDS_HANDLE. -/
theorem destroy_dispatch_witness :
    (sampleBuffer.destroy lp64Build).2 =
      [Event.unregisterBuffer (some sampleHandle), Event.native_handle_close (some sampleHandle),
        Event.native_handle_delete (some sampleHandle)] ∧
    (sampleBuffer.destroy lp64Build).1 = { sampleBuffer with handle := none } :=
  have h := destroy_dispatch lp64Build sampleBuffer
  ⟨(h.2.1 sampleHandle rfl).1 rfl, h.2.2.1 rfl⟩

/-- Counterexample to claim C15 as stated: in a build that defines EGL_NEEDS_HANDLE the
release step of `sampleBuffer` makes its three calls and leaves the handle in place. -/
theorem destroy_keeps_handle_counterexample :
    eglBuild.EGL_NEEDS_HANDLE = true ∧
    sampleBuffer.handle = some sampleHandle ∧
    (sampleBuffer.destroy eglBuild).2 =
      [Event.unregisterBuffer (some sampleHandle), Event.native_handle_close (some sampleHandle),
        Event.native_handle_delete (some sampleHandle)] ∧
    (sampleBuffer.destroy eglBuild).1.handle = some sampleHandle ∧
    (sampleBuffer.destroy eglBuild).1.handle ≠ none := by
  decide

/-- Claim C18, as amended: reallocate with non-matching parameters allocates afresh.
For every ownData object and every request such that the handle is null or at least one
of the five requested values, converted the way the code compares it (width, height and
the 64-bit usage to int), differs from the current value of the object, reallocate frees
the existing handle through the allocator (exactly once, if present) and then calls
alloc exactly once with the requested width, height and format and the low 32 bits of
the requested usage; it is not a no-op. -/
theorem reallocate_allocates_afresh (al : Allocator) (gb : GraphicBuffer)
    (inWidth inHeight : Nat) (inFormat : Int) (inLayerCount inUsage : Nat)
    (ho : gb.mOwner = Owner.ownData)
    (hne : gb.handle = none ∨ toInt32 inWidth ≠ gb.width ∨ toInt32 inHeight ≠ gb.height ∨
      inFormat ≠ gb.format ∨ inLayerCount ≠ gb.layerCount ∨ toInt32 inUsage ≠ gb.usage) :
    (gb.reallocate al inWidth inHeight inFormat inLayerCount inUsage).2.2 =
      (if gb.handle.isSome then [Event.allocatorFree gb.handle] else []) ++
        [Event.allocatorAlloc inWidth inHeight inFormat (inUsage % 4294967296)] ∧
    (gb.reallocate al inWidth inHeight inFormat inLayerCount inUsage).2.2.count
      (Event.allocatorAlloc inWidth inHeight inFormat (inUsage % 4294967296)) = 1 ∧
    (gb.reallocate al inWidth inHeight inFormat inLayerCount inUsage).2.2.count
      (Event.allocatorFree gb.handle) = (if gb.handle.isSome then 1 else 0) := by
  have hne2 : ¬ (gb.handle.isSome ∧ toInt32 inWidth = gb.width ∧
      toInt32 inHeight = gb.height ∧ inFormat = gb.format ∧ inLayerCount = gb.layerCount ∧
      toInt32 inUsage = gb.usage) := by
    rintro ⟨h0, h1, h2, h3, h4, h5⟩
    rcases hne with h | h | h | h | h | h
    · rw [h] at h0
      exact absurd h0 (by decide)
    · exact h h1
    · exact h h2
    · exact h h3
    · exact h h4
    · exact h h5
  have htrace : (gb.reallocate al inWidth inHeight inFormat inLayerCount inUsage).2.2 =
      (if gb.handle.isSome then [Event.allocatorFree gb.handle] else []) ++
        [Event.allocatorAlloc inWidth inHeight inFormat (inUsage % 4294967296)] := by
    by_cases he : (al.alloc inWidth inHeight inFormat (inUsage % 4294967296) none).err
        = NO_ERROR
    · rw [reallocate_alloc_success al gb inWidth inHeight inFormat inLayerCount inUsage ho
        hne2 he]
    · rw [reallocate_alloc_failure al gb inWidth inHeight inFormat inLayerCount inUsage ho
        hne2 he]
  rw [htrace]
  refine ⟨rfl, ?_, ?_⟩
  · cases hh : gb.handle <;> simp
  · cases hh : gb.handle <;> simp

/-- Witness of claim C18 as amended: `ownedBuffer` asked for a 1x1 buffer. -/
theorem reallocate_allocates_afresh_witness :
    (ownedBuffer.reallocate okAllocator 1 1 1 1 3).2.2 =
      (if ownedBuffer.handle.isSome then [Event.allocatorFree ownedBuffer.handle] else []) ++
        [Event.allocatorAlloc 1 1 1 (3 % 4294967296)] :=
  (reallocate_allocates_afresh okAllocator ownedBuffer 1 1 1 1 3 rfl
    (Or.inr (Or.inl (by decide)))).1

/-- Counterexample to claim C18 as stated: `ownedBuffer` has usage 3; a request that
differs from it only in the usage, 2^32 + 3, is treated as matching, so reallocate
returns NO_ERROR without calling the allocator; and from a fresh object the same
request reaches alloc with usage 3, not the requested 2^32 + 3. -/
theorem reallocate_wide_usage_counterexample :
    ownedBuffer.mOwner = Owner.ownData ∧ ownedBuffer.handle = some sampleHandle ∧
    ownedBuffer.usage = 3 ∧ ((4294967299 : Nat) : Int) ≠ ownedBuffer.usage ∧
    ownedBuffer.reallocate okAllocator 640 480 1 1 4294967299 = (NO_ERROR, ownedBuffer, []) ∧
    ((GraphicBuffer.new sampleProcess).1.reallocate okAllocator 640 480 1 1 4294967299).2.2
      = [Event.allocatorAlloc 640 480 1 3] := by
  decide

/-- Claim C20, as amended: a successful reallocate satisfies its own request.  For every
object and every request whose usage fits in 32 bits, if reallocate with that request
returns NO_ERROR (which requires ownership mode ownData), then needsReallocation called
immediately afterwards with the same request returns false. -/
theorem reallocate_then_needsReallocation (al : Allocator) (gb : GraphicBuffer)
    (inWidth inHeight : Nat) (inFormat : Int) (inLayerCount inUsage : Nat)
    (hu : inUsage < 4294967296)
    (hok : (gb.reallocate al inWidth inHeight inFormat inLayerCount inUsage).1 = NO_ERROR) :
    gb.mOwner = Owner.ownData ∧
    (gb.reallocate al inWidth inHeight inFormat inLayerCount inUsage).2.1.needsReallocation
      inWidth inHeight inFormat inLayerCount inUsage = false := by
  have husage : toUInt32 (toInt32 (inUsage : Int)) &&& inUsage = inUsage := by
    rw [generation_restored inUsage hu, Nat.and_self]
  have hmod : inUsage % 4294967296 = inUsage := Nat.mod_eq_of_lt hu
  by_cases ho : gb.mOwner = Owner.ownData
  · refine ⟨ho, ?_⟩
    by_cases hm : gb.handle.isSome ∧ toInt32 inWidth = gb.width ∧
        toInt32 inHeight = gb.height ∧ inFormat = gb.format ∧ inLayerCount = gb.layerCount ∧
        toInt32 inUsage = gb.usage
    · rw [reallocate_matching al gb inWidth inHeight inFormat inLayerCount inUsage ho hm]
      obtain ⟨-, h1, h2, h3, h4, h5⟩ := hm
      unfold GraphicBuffer.needsReallocation
      rw [← h5, husage]
      simp only [h1, h2, h3, h4, ne_eq, not_true_eq_false, if_false]
    · by_cases he : (al.alloc inWidth inHeight inFormat (inUsage % 4294967296) none).err
          = NO_ERROR
      · rw [reallocate_alloc_success al gb inWidth inHeight inFormat inLayerCount inUsage ho
          hm he]
        unfold GraphicBuffer.needsReallocation
        simp only [hmod, husage, ne_eq, not_true_eq_false, if_false]
      · rw [reallocate_alloc_failure al gb inWidth inHeight inFormat inLayerCount inUsage ho
          hm he] at hok
        exact absurd hok he
  · rw [reallocate_not_owner al gb inWidth inHeight inFormat inLayerCount inUsage ho] at hok
    have hdiff : INVALID_OPERATION ≠ NO_ERROR := by decide
    exact absurd hok hdiff

/-- Witness of claim C20 as amended: a fresh object reallocated to 640x480. -/
theorem reallocate_then_needsReallocation_witness :
    ((GraphicBuffer.new sampleProcess).1.reallocate okAllocator 640 480 1 1 3).2.1.needsReallocation
      640 480 1 1 3 = false :=
  (reallocate_then_needsReallocation okAllocator (GraphicBuffer.new sampleProcess).1
    640 480 1 1 3 (by decide) (by decide)).2

/-- Counterexample to claim C20 as stated: a fresh object reallocated with usage 2^32
gets NO_ERROR, its usage field is 0, and needsReallocation with the same request
returns true. -/
theorem reallocate_wide_usage_unsatisfied_counterexample :
    (GraphicBuffer.new sampleProcess).1.mOwner = Owner.ownData ∧
    ((GraphicBuffer.new sampleProcess).1.reallocate okAllocator 640 480 1 1 4294967296).1
      = NO_ERROR ∧
    ((GraphicBuffer.new sampleProcess).1.reallocate okAllocator 640 480 1 1 4294967296).2.1.usage
      = 0 ∧
    ((GraphicBuffer.new sampleProcess).1.reallocate okAllocator 640 480 1 1
      4294967296).2.1.needsReallocation 640 480 1 1 4294967296 = true := by
  decide

/-- Claim C17, as amended: identifiers of constructed objects.  With the counter `nextId`
as explicit state and a process identifier in the range of a non-negative int, every
constructor gives its object the id computed by getUniqueId and advances the counter
once; the high 32 bits of the id of the object constructed after n earlier constructions
equal the process identifier and its low 32 bits equal the counter value at the time of
its construction (as an unsigned 32-bit word); and any two objects constructed in the
same process fewer than 2^32 constructions apart receive distinct ids. -/
theorem constructed_ids (p : Process) (h0 : 0 ≤ p.pid) (h1 : p.pid < 2147483648) :
    (∀ q : Process, (GraphicBuffer.new q).1.mId = (getUniqueId q).1 ∧
      (GraphicBuffer.new q).2 = (getUniqueId q).2) ∧
    (∀ (q : Process) (buffer : ANativeWindowBuffer) (keep : Bool),
      (GraphicBuffer.ofNativeBuffer q buffer keep).1.mId = (getUniqueId q).1 ∧
      (GraphicBuffer.ofNativeBuffer q buffer keep).2 = (getUniqueId q).2) ∧
    (∀ (q : Process) (env : Collaborators) (handle : Option native_handle)
        (method : HandleWrapMethod) (width height : Nat) (format : Int)
        (layerCount usage stride : Nat),
      (GraphicBuffer.wrap env q handle method width height format layerCount usage stride).1.mId
        = (getUniqueId q).1 ∧
      (GraphicBuffer.wrap env q handle method width height format layerCount usage stride).2.1
        = (getUniqueId q).2) ∧
    (∀ (q : Process) (al : Allocator) (inWidth inHeight : Nat) (inFormat : Int)
        (inLayerCount usage : Nat),
      (GraphicBuffer.ofSize al q inWidth inHeight inFormat inLayerCount usage).1.mId
        = (getUniqueId q).1 ∧
      (GraphicBuffer.ofSize al q inWidth inHeight inFormat inLayerCount usage).2.1
        = (getUniqueId q).2) ∧
    (∀ n, constructedId p n / 4294967296 = p.pid.toNat ∧
      constructedId p n % 4294967296 = toUInt32 (p.afterConstructions n).nextId) ∧
    (∀ i j, i < j → j - i < 4294967296 → constructedId p i ≠ constructedId p j) := by
  refine ⟨fun q => ⟨rfl, rfl⟩, fun q buffer keep => ⟨rfl, rfl⟩, ?_, ?_, ?_, ?_⟩
  · intro q env handle method width height format layerCount usage stride
    refine ⟨?_, rfl⟩
    simp only [GraphicBuffer.wrap]
    exact initWithHandle_mId env (GraphicBuffer.new q).1 handle method width height format
      layerCount usage stride
  · intro q al inWidth inHeight inFormat inLayerCount usage
    refine ⟨?_, rfl⟩
    simp only [GraphicBuffer.ofSize]
    exact initWithSize_mId al (GraphicBuffer.new q).1 inWidth inHeight inFormat inLayerCount
      (usage % 4294967296)
  · intro n
    rw [constructedId_eq p n h0 h1, afterConstructions_nextId]
    have hlt := toUInt32_lt (p.nextId + n)
    generalize toUInt32 (p.nextId + n) = lo at hlt
    generalize p.pid.toNat = hi
    norm_num
    omega
  · intro i j hij hd
    rw [constructedId_eq p i h0 h1, constructedId_eq p j h0 h1]
    have hne := toUInt32_distinct p.nextId i j hij hd
    generalize toUInt32 (p.nextId + i) = a at hne
    generalize toUInt32 (p.nextId + j) = b at hne
    omega

/-- Witness of claim C17 as amended: the first two objects of `sampleProcess` get
different ids, and the first one carries the process identifier 1234 in its high half. -/
theorem constructed_ids_witness :
    constructedId sampleProcess 0 ≠ constructedId sampleProcess 1 ∧
    constructedId sampleProcess 0 / 4294967296 = 1234 :=
  have h := constructed_ids sampleProcess (by decide) (by decide)
  ⟨h.2.2.2.2.2 0 1 (by decide) (by decide), (h.2.2.2.2.1 0).1⟩

/-- Counterexample to claim C17 as stated: the counter is a 32-bit word, so the object
constructed after 2^32 earlier constructions receives the id of the first object. -/
theorem constructed_ids_wrap_counterexample :
    (0 : Nat) ≠ 4294967296 ∧
    constructedId sampleProcess 4294967296 = constructedId sampleProcess 0 := by
  refine ⟨by decide, ?_⟩
  rw [constructedId_eq sampleProcess 4294967296 (by decide) (by decide),
    constructedId_eq sampleProcess 0 (by decide) (by decide)]
  decide

/-- Claim C16, as amended: null handle implies zero geometry, as an invariant.  In every
state reachable from the empty construction, from allocation by size, or from wrapping
or adopting a non-null handle, by any sequence of unflatten calls (with any collaborator
outcomes) and of reallocate calls whose allocation succeeds or which have no handle to
lose, the allocator producing a handle whenever it reports success, if the handle of
the object is null then width, height, stride, format, layerCount and usage are all 0. -/
theorem reachable_invariant (b : Build) (gb : GraphicBuffer) (h : ReachableByDesign b gb) :
    gb.nullHandleZeroGeometry := by
  induction h with
  | new p => exact inv_new p
  | ofSize al p inWidth inHeight inFormat inLayerCount usage hs =>
    exact inv_ofSize al p inWidth inHeight inFormat inLayerCount usage hs
  | wrap env p handle method width height format layerCount usage stride hh =>
    exact inv_wrap env p handle method width height format layerCount usage stride hh
  | ofNativeBuffer p buffer keep hh => exact inv_ofNativeBuffer p buffer keep hh
  | reallocate gb al inWidth inHeight inFormat inLayerCount inUsage hs hok _ ih =>
    exact inv_reallocate al gb inWidth inHeight inFormat inLayerCount inUsage hs hok ih
  | unflatten gb env mem fdMem c _ ih => exact inv_unflatten b env gb mem fdMem c ih

/-- Witness of claim C16 as amended: a fresh object after an unflatten call on memory
without the magic word. -/
theorem reachable_invariant_witness :
    ((GraphicBuffer.new sampleProcess).1.unflatten lp64Build okEnv zeroMem zeroMem
      sampleCursors).2.1.nullHandleZeroGeometry :=
  reachable_invariant lp64Build _
    (ReachableByDesign.unflatten _ okEnv zeroMem zeroMem sampleCursors
      (ReachableByDesign.new sampleProcess))

/-- Counterexample to claim C16 as stated: adopting a platform buffer descriptor whose
handle is null and whose width is 640 is a construction path, and the constructed
object has a null handle and width 640. -/
theorem reachable_null_handle_counterexample :
    Reachable lp64Build nullHandleBuffer ∧ nullHandleBuffer.handle = none ∧
    nullHandleBuffer.width = 640 ∧ ¬ nullHandleBuffer.nullHandleZeroGeometry := by
  refine ⟨Reachable.ofNativeBuffer sampleProcess _ false, rfl, rfl, ?_⟩
  intro hz
  have hw := (hz rfl).1
  exact absurd hw (by decide)

/-! ## Further facts -/

/-- On a 64-bit build a layerCount of 2^31, which `initWithHandle` accepts from its
`uint32_t` argument, is written as the word -2^31 and read back sign-extended. -/
theorem layerCount_sign_extension_lp64 :
    toInt32 ((2147483648 : Nat) : Int) = -2147483648 ∧
    toSizeT Abi.lp64 (toInt32 ((2147483648 : Nat) : Int)) = 18446744071562067968 ∧
    toSizeT Abi.ilp32 (toInt32 ((2147483648 : Nat) : Int)) = 2147483648 := by
  decide

/-- A reallocate call whose allocation fails frees the old handle and leaves the
geometry in place: `ownedBuffer` ends with a null handle and width 640. -/
theorem reallocate_failure_keeps_geometry :
    ownedBuffer.handle = some sampleHandle ∧
    (ownedBuffer.reallocate failingAllocator 1 1 1 1 3).1 = NO_MEMORY ∧
    (ownedBuffer.reallocate failingAllocator 1 1 1 1 3).2.1.handle = none ∧
    (ownedBuffer.reallocate failingAllocator 1 1 1 1 3).2.1.width = 640 := by
  decide

end android
